import Mathlib

/-!
# lambda-bot: voice-message pipeline

Shallow embedding of the four services of the repository

* `cmd/whatsapp-gateway/main.go`  (webhook handler, signature check, media download, reply)
* `cmd/orchestrator/main.go`      (two-stage pipeline for one job)
* `cmd/audio-processor/main.go`   (transcription stage)
* `cmd/text-summarizer/main.go`   (summarization stage)

Go strings and byte slices are byte sequences.  Library and network calls are
fields of an environment record; the effectful ones thread an explicit world
state.  Calls made by a modelled function are recorded in a call log returned
next to its result.  Logging (`log.Printf`) has no influence on control flow
and is left out.
-/

namespace LambdaBot

/-! ## Strings and errors -/

/-- A byte. -/
abbrev Byte := Fin 256

/-- A Go `string` / `[]byte`: a sequence of bytes. -/
abbrev GoString := List Byte

/-- The bytes of a source literal (UTF-8, as Go stores string literals). -/
def goStr (s : String) : GoString :=
  (s.data.flatMap String.utf8EncodeChar).map (fun b => b.val)

/-- A Go `error` value, represented by the text its `Error()` method yields. -/
structure GoError where
  text : GoString
deriving DecidableEq, Repr

/-- Result of a Go call returning `(T, error)`. -/
inductive Res (α : Type) where
  | ok (val : α)
  | err (e : GoError)
deriving DecidableEq, Repr

/-- Whether a call result is an error (`err != nil`). -/
def Res.failed {α : Type} : Res α → Bool
  | .ok _ => false
  | .err _ => true

/-! ## Signature validation (`whatsapp-gateway`) -/

/-- The table `hextable` of `encoding/hex`: `"0123456789abcdef"`. -/
def hextable : GoString := goStr "0123456789abcdef"

/-- Go `hex.EncodeToString`: every byte `v` becomes `hextable[v>>4]`, `hextable[v&0x0f]`. -/
def hexEncodeToString (src : GoString) : GoString :=
  src.flatMap (fun v => [hextable.getD (v.val >>> 4) 0, hextable.getD (v.val &&& 0x0f) 0])

/-- Go `subtle.ConstantTimeByteEq` on bytes: `int((uint32(x^y) - 1) >> 31)`. -/
def constantTimeByteEq (x y : Nat) : Nat :=
  (((x ^^^ y) + 2 ^ 32 - 1) % 2 ^ 32) >>> 31

/-- Go `subtle.ConstantTimeCompare`: 0 when the lengths differ, otherwise the
xor of every pair of bytes is or-ed into one byte that is compared with 0. -/
def constantTimeCompare (x y : GoString) : Nat :=
  if x.length ≠ y.length then 0
  else constantTimeByteEq ((x.zip y).foldl (fun v p => v ||| (p.1.val ^^^ p.2.val)) 0) 0

/-- Go `hmac.Equal`: `subtle.ConstantTimeCompare(mac1, mac2) == 1`. -/
def hmacEqual (mac1 mac2 : GoString) : Bool :=
  constantTimeCompare mac1 mac2 == 1

/-- Source `validateSignature` (gateway, lines 62-67).  `hmacSha256 key msg` stands
for `hmac.New(sha256.New, key)`, `Write(msg)`, `Sum(nil)`. -/
def validateSignature (hmacSha256 : GoString → GoString → GoString)
    (appSecret body signatureHeader : GoString) : Bool :=
  let expected := goStr "sha256=" ++ hexEncodeToString (hmacSha256 appSecret body)
  hmacEqual expected signatureHeader

/-! ## Data model -/

/-- Source `Config` (gateway, lines 24-31). -/
structure Config where
  Port : GoString
  VerifyToken : GoString
  AppSecret : GoString
  ApiToken : GoString
  PhoneNumberID : GoString
  OrchestratorGRPCAddr : GoString
deriving DecidableEq, Repr

/-- The `audio` object of a message (gateway, lines 53-55). -/
structure Audio where
  ID : GoString
deriving DecidableEq, Repr

/-- One element of `messages` (gateway, lines 49-56).  `MsgType` is the Go field `Type`
(a reserved word here); `Audio` is a pointer that may be nil. -/
structure Message where
  From : GoString
  ID : GoString
  MsgType : GoString
  Audio : Option Audio
deriving DecidableEq, Repr

/-- The `value` object of a change (gateway, lines 48-57). -/
structure Value where
  Messages : List Message
deriving DecidableEq, Repr

/-- One element of `changes` (gateway, lines 47-58). -/
structure Change where
  Value : Value
deriving DecidableEq, Repr

/-- One element of `entry` (gateway, lines 46-59). -/
structure Entry where
  Changes : List Change
deriving DecidableEq, Repr

/-- Source `WebhookPayload` (gateway, lines 45-60). -/
structure WebhookPayload where
  Entry : List Entry
deriving DecidableEq, Repr

/-- Modelled from the spec: message `ProcessRequest` of the generated package
`pkg/protogen` (not under src/); fields as set by the gateway (lines 204-208) and as
listed in the internal RPC contracts (sender id, media reference, media handle). -/
structure ProcessRequest where
  SenderId : GoString
  MediaId : GoString
  AudioFilePath : GoString
deriving DecidableEq, Repr

/-- Modelled from the spec: message `ProcessResponse` of `pkg/protogen` (summary text). -/
structure ProcessResponse where
  Summary : GoString
deriving DecidableEq, Repr

/-- Modelled from the spec: message `TranscriptionRequest` of `pkg/protogen`
(media reference, correlation id). -/
structure TranscriptionRequest where
  AudioFilePath : GoString
  MessageId : GoString
deriving DecidableEq, Repr

/-- Modelled from the spec: message `TranscriptionResponse` of `pkg/protogen`
(transcript text, correlation id). -/
structure TranscriptionResponse where
  Transcript : GoString
  MessageId : GoString
deriving DecidableEq, Repr

/-- Modelled from the spec: message `SummarizationRequest` of `pkg/protogen`
(transcript text, correlation id). -/
structure SummarizationRequest where
  Transcript : GoString
  MessageId : GoString
deriving DecidableEq, Repr

/-- Modelled from the spec: message `SummarizationResponse` of `pkg/protogen`
(summary text, correlation id). -/
structure SummarizationResponse where
  Summary : GoString
  MessageId : GoString
deriving DecidableEq, Repr

/-! ## Gateway: HTTP helpers -/

/-- An outgoing HTTP request as built by the gateway: method, URL, the two headers it
sets and the body. -/
structure HttpRequest where
  method : GoString
  url : GoString
  authorization : GoString
  contentType : Option GoString
  body : GoString
deriving DecidableEq, Repr

/-- The parts of an `http.Response` the gateway reads. -/
structure HttpResponse where
  StatusCode : Nat
  Status : GoString
  Body : GoString
deriving DecidableEq, Repr

/-- Library and network operations used by the gateway.  Pure library functions are
plain functions; operations on the outside world take and return the world state. -/
structure GatewayEnv (σ : Type) where
  /-- HMAC-SHA256: key, message, 32-byte tag. -/
  hmacSha256 : GoString → GoString → GoString
  /-- The call `json.Unmarshal(body, &payload)`. -/
  jsonUnmarshal : GoString → Res WebhookPayload
  /-- Decoding the media metadata object; yields its `url` field. -/
  jsonDecodeMeta : GoString → Res GoString
  /-- The call `json.Marshal` of the reply object, from recipient and text. -/
  jsonMarshalReply : GoString → GoString → GoString
  /-- Validation done by `http.NewRequest` (method, URL). -/
  httpNewRequest : GoString → GoString → Option GoError
  /-- The call `http.DefaultClient.Do`. -/
  httpDo : HttpRequest → σ → Res HttpResponse × σ
  /-- The call `os.TempDir()`. -/
  tempDir : GoString
  /-- The call `filepath.Join`. -/
  filepathJoin : GoString → GoString → GoString
  /-- The call `os.Create`. -/
  osCreate : GoString → σ → Option GoError × σ
  /-- The call `io.Copy` of a response body into the created file. -/
  ioCopy : GoString → GoString → σ → Option GoError × σ
  /-- The call `grpc.Dial(addr, grpc.WithInsecure())`. -/
  grpcDial : GoString → σ → Option GoError × σ
  /-- The remote call `client.ProcessVoiceMessage` under its 60 s deadline. -/
  processVoiceMessage : ProcessRequest → σ → Res ProcessResponse × σ

/-- Source `downloadWhatsAppMedia` (gateway, lines 69-119). -/
def downloadWhatsAppMedia {σ : Type} (env : GatewayEnv σ) (mediaID apiToken : GoString)
    (s : σ) : Res GoString × σ :=
  let metaURL := goStr "https://graph.facebook.com/v19.0/" ++ mediaID
  match env.httpNewRequest (goStr "GET") metaURL with
  | some e => (.err e, s)
  | none =>
    match env.httpDo ⟨goStr "GET", metaURL, goStr "Bearer " ++ apiToken, none, []⟩ s with
    | (.err e, s1) => (.err e, s1)
    | (.ok resp, s1) =>
      if resp.StatusCode ≠ 200 then
        (.err ⟨goStr "failed to get media url: " ++ resp.Status⟩, s1)
      else
        match env.jsonDecodeMeta resp.Body with
        | .err e => (.err e, s1)
        | .ok url =>
          match env.httpNewRequest (goStr "GET") url with
          | some e => (.err e, s1)
          | none =>
            match env.httpDo ⟨goStr "GET", url, goStr "Bearer " ++ apiToken, none, []⟩ s1 with
            | (.err e, s2) => (.err e, s2)
            | (.ok resp2, s2) =>
              if resp2.StatusCode ≠ 200 then
                (.err ⟨goStr "failed to download media: " ++ resp2.Status⟩, s2)
              else
                let filePath := env.filepathJoin env.tempDir (mediaID ++ goStr ".ogg")
                match env.osCreate filePath s2 with
                | (some e, s3) => (.err e, s3)
                | (none, s3) =>
                  match env.ioCopy filePath resp2.Body s3 with
                  | (some e, s4) => (.err e, s4)
                  | (none, s4) => (.ok filePath, s4)

/-- Source `sendWhatsAppReply` (gateway, lines 121-145). -/
def sendWhatsAppReply {σ : Type} (env : GatewayEnv σ)
    (apiToken phoneNumberID recipientID messageText : GoString) (s : σ) : Option GoError × σ :=
  let url := goStr "https://graph.facebook.com/v19.0/" ++ phoneNumberID ++ goStr "/messages"
  let b := env.jsonMarshalReply recipientID messageText
  match env.httpNewRequest (goStr "POST") url with
  | some e => (some e, s)
  | none =>
    match env.httpDo ⟨goStr "POST", url, goStr "Bearer " ++ apiToken,
        some (goStr "application/json"), b⟩ s with
    | (.err e, s1) => (some e, s1)
    | (.ok resp, s1) =>
      if resp.StatusCode ≠ 200 then
        (some ⟨goStr "failed to send reply: " ++ resp.Status ++ goStr ", " ++ resp.Body⟩, s1)
      else (none, s1)

/-! ## Gateway: the webhook handler -/

/-- The parts of an incoming `http.Request` the handler reads. -/
structure Request where
  /-- The field `r.Method`. -/
  Method : GoString
  /-- The lookup `r.URL.Query().Get(key)`. -/
  query : GoString → GoString
  /-- The lookup `r.Header.Get(key)`; an absent header is the empty string. -/
  header : GoString → GoString
  /-- The outcome of `io.ReadAll(r.Body)`. -/
  readBody : Res GoString

/-- A call made by the handler body, with its arguments and what it returned. -/
inductive Call where
  | unmarshal (body : GoString)
  | download (mediaID apiToken : GoString) (result : Res GoString)
  | dial (addr : GoString) (err : Option GoError)
  | processVoiceMessage (req : ProcessRequest) (result : Res ProcessResponse)
  | reply (apiToken phoneNumberID recipientID messageText : GoString) (err : Option GoError)
deriving DecidableEq, Repr

/-- What one run of the handler leaves behind: the response written, the world state
and the calls made, in order. -/
structure Handled (σ : Type) where
  status : Nat
  body : GoString
  state : σ
  calls : List Call

/-- The text sent when the media download fails (gateway, line 191). -/
def downloadNotice : GoString := goStr "Sorry, failed to download your audio."

/-- The text sent when the orchestrator cannot be reached or fails (gateway, lines 198, 212). -/
def processNotice : GoString := goStr "Sorry, failed to process your audio."

/-- Body of the innermost loop of `webhookHandler` (gateway, lines 183-216) for one
message, on the running world state and call log.  `conn.Close()` and the deferred
`cancel()` return nothing the handler reads. -/
def handleMessage {σ : Type} (cfg : Config) (env : GatewayEnv σ)
    (acc : σ × List Call) (msg : Message) : σ × List Call :=
  if msg.MsgType = goStr "audio" then
    match msg.Audio with
    | none => acc
    | some audio =>
      let sender := msg.From
      let mediaID := audio.ID
      match downloadWhatsAppMedia env mediaID cfg.ApiToken acc.1 with
      | (.err e, s1) =>
        let r := sendWhatsAppReply env cfg.ApiToken cfg.PhoneNumberID sender downloadNotice s1
        (r.2, acc.2 ++ [.download mediaID cfg.ApiToken (.err e),
          .reply cfg.ApiToken cfg.PhoneNumberID sender downloadNotice r.1])
      | (.ok filePath, s1) =>
        match env.grpcDial cfg.OrchestratorGRPCAddr s1 with
        | (some e, s2) =>
          let r := sendWhatsAppReply env cfg.ApiToken cfg.PhoneNumberID sender processNotice s2
          (r.2, acc.2 ++ [.download mediaID cfg.ApiToken (.ok filePath),
            .dial cfg.OrchestratorGRPCAddr (some e),
            .reply cfg.ApiToken cfg.PhoneNumberID sender processNotice r.1])
        | (none, s2) =>
          match env.processVoiceMessage ⟨sender, mediaID, filePath⟩ s2 with
          | (.err e, s3) =>
            let r := sendWhatsAppReply env cfg.ApiToken cfg.PhoneNumberID sender processNotice s3
            (r.2, acc.2 ++ [.download mediaID cfg.ApiToken (.ok filePath),
              .dial cfg.OrchestratorGRPCAddr none,
              .processVoiceMessage ⟨sender, mediaID, filePath⟩ (.err e),
              .reply cfg.ApiToken cfg.PhoneNumberID sender processNotice r.1])
          | (.ok resp, s3) =>
            let r := sendWhatsAppReply env cfg.ApiToken cfg.PhoneNumberID sender resp.Summary s3
            (r.2, acc.2 ++ [.download mediaID cfg.ApiToken (.ok filePath),
              .dial cfg.OrchestratorGRPCAddr none,
              .processVoiceMessage ⟨sender, mediaID, filePath⟩ (.ok resp),
              .reply cfg.ApiToken cfg.PhoneNumberID sender resp.Summary r.1])
  else acc

/-- The three nested loops of `webhookHandler` (gateway, lines 180-219). -/
def handleEntries {σ : Type} (cfg : Config) (env : GatewayEnv σ)
    (payload : WebhookPayload) (acc : σ × List Call) : σ × List Call :=
  payload.Entry.foldl (fun acc1 entry =>
    entry.Changes.foldl (fun acc2 change =>
      change.Value.Messages.foldl (handleMessage cfg env) acc2) acc1) acc

/-- Source `webhookHandler` (gateway, lines 147-226): the handler function it returns,
run on one request from world state `s`. -/
def webhookHandler {σ : Type} (cfg : Config) (env : GatewayEnv σ) (r : Request) (s : σ) :
    Handled σ :=
  if r.Method = goStr "GET" then
    let mode := r.query (goStr "hub.mode")
    let challenge := r.query (goStr "hub.challenge")
    let verifyToken := r.query (goStr "hub.verify_token")
    if mode = goStr "subscribe" ∧ verifyToken = cfg.VerifyToken then
      ⟨200, challenge, s, []⟩
    else ⟨403, [], s, []⟩
  else if r.Method = goStr "POST" then
    match r.readBody with
    | .err _ => ⟨400, [], s, []⟩
    | .ok body =>
      let sig := r.header (goStr "X-Hub-Signature-256")
      if ¬ validateSignature env.hmacSha256 cfg.AppSecret body sig then
        ⟨403, [], s, []⟩
      else
        match env.jsonUnmarshal body with
        | .err _ => ⟨400, [], s, [.unmarshal body]⟩
        | .ok payload =>
          let acc := handleEntries cfg env payload (s, [.unmarshal body])
          ⟨200, [], acc.1, acc.2⟩
  else ⟨405, [], s, []⟩

/-! ## Orchestrator -/

/-- The two stage clients of `orchestratorServer` (lines 17-21) and the file removal
it performs. -/
structure OrchestratorEnv (σ : Type) where
  /-- The remote call `s.audioClient.TranscribeAudio`. -/
  transcribeAudio : TranscriptionRequest → σ → Res TranscriptionResponse × σ
  /-- The remote call `s.summarizerClient.SummarizeText`. -/
  summarizeText : SummarizationRequest → σ → Res SummarizationResponse × σ
  /-- The call `os.Remove`. -/
  osRemove : GoString → σ → Option GoError × σ

/-- A call made by `ProcessVoiceMessage`, with its argument and what it returned. -/
inductive OrchCall where
  | transcribe (req : TranscriptionRequest) (result : Res TranscriptionResponse)
  | summarize (req : SummarizationRequest) (result : Res SummarizationResponse)
  | remove (path : GoString) (err : Option GoError)
deriving DecidableEq, Repr

/-- What one run of `ProcessVoiceMessage` leaves behind. -/
structure Processed (σ : Type) where
  result : Res ProcessResponse
  state : σ
  calls : List OrchCall

/-- The error built by `status.Errorf(codes.Internal, label + "%v", err)`. -/
def internalError (label : GoString) (e : GoError) : GoError :=
  ⟨goStr "rpc error: code = Internal desc = " ++ label ++ e.text⟩

/-- Source `orchestratorServer.ProcessVoiceMessage` (orchestrator, lines 23-52). -/
def ProcessVoiceMessage {σ : Type} (env : OrchestratorEnv σ) (req : ProcessRequest) (s : σ) :
    Processed σ :=
  let treq : TranscriptionRequest := ⟨req.AudioFilePath, req.MediaId⟩
  match env.transcribeAudio treq s with
  | (.err e, s1) =>
    ⟨.err (internalError (goStr "audio processor error: ") e), s1, [.transcribe treq (.err e)]⟩
  | (.ok transcribeResp, s1) =>
    let sreq : SummarizationRequest := ⟨transcribeResp.Transcript, req.MediaId⟩
    match env.summarizeText sreq s1 with
    | (.err e, s2) =>
      ⟨.err (internalError (goStr "text summarizer error: ") e), s2,
        [.transcribe treq (.ok transcribeResp), .summarize sreq (.err e)]⟩
    | (.ok summaryResp, s2) =>
      if req.AudioFilePath ≠ [] then
        let r := env.osRemove req.AudioFilePath s2
        ⟨.ok ⟨summaryResp.Summary⟩, r.2,
          [.transcribe treq (.ok transcribeResp), .summarize sreq (.ok summaryResp),
            .remove req.AudioFilePath r.1]⟩
      else
        ⟨.ok ⟨summaryResp.Summary⟩, s2,
          [.transcribe treq (.ok transcribeResp), .summarize sreq (.ok summaryResp)]⟩

/-! ## The two stages -/

/-- A `genai.Part`: text, binary data, or any other kind of part. -/
inductive Part where
  | text (t : GoString)
  | blob (mimeType data : GoString)
  | other
deriving DecidableEq, Repr

/-- A `genai.Content`. -/
structure Content where
  Parts : List Part
deriving DecidableEq, Repr

/-- A `genai.Candidate`; `Content` is a pointer that may be nil. -/
structure Candidate where
  Content : Option Content
deriving DecidableEq, Repr

/-- A `genai.GenerateContentResponse`. -/
structure GenerateContentResponse where
  Candidates : List Candidate
deriving DecidableEq, Repr

/-- File and model operations used by the stages. -/
structure StageEnv (σ : Type) where
  /-- The call `os.ReadFile`. -/
  osReadFile : GoString → σ → Res GoString × σ
  /-- The call `os.Remove`. -/
  osRemove : GoString → σ → Option GoError × σ
  /-- The call `s.geminiModel.GenerateContent`. -/
  generateContent : List Part → σ → Res GenerateContentResponse × σ

/-- The extraction loop shared by both stages (audio-processor lines 41-48,
text-summarizer lines 43-50): the text parts of the first candidate, appended in order. -/
def extractText (resp : GenerateContentResponse) : GoString :=
  match resp.Candidates with
  | [] => []
  | c :: _ =>
    match c.Content with
    | none => []
    | some content =>
      content.Parts.foldl (fun acc part =>
        match part with
        | .text t => acc ++ t
        | _ => acc) []

/-- The instruction sent with the audio (audio-processor, line 32). -/
def transcribePrompt : GoString :=
  goStr "Transcribe this voice message accurately. Preserve the conversational nature."

/-- Source `audioProcessorServer.TranscribeAudio` (audio-processor, lines 22-56).  The
deferred `os.Remove` runs when the function returns, on every path after the read. -/
def TranscribeAudio {σ : Type} (env : StageEnv σ) (req : TranscriptionRequest) (s : σ) :
    Res TranscriptionResponse × σ :=
  let audioFilePath := req.AudioFilePath
  match env.osReadFile audioFilePath s with
  | (.err e, s1) =>
    (.err ⟨goStr "failed to read audio file " ++ audioFilePath ++ goStr ": " ++ e.text⟩, s1)
  | (.ok audioData, s1) =>
    let out : Res TranscriptionResponse × σ :=
      match env.generateContent [.blob (goStr "audio/ogg") audioData, .text transcribePrompt] s1 with
      | (.err e, s2) =>
        (.err ⟨goStr "failed to generate content from Gemini: " ++ e.text⟩, s2)
      | (.ok resp, s2) =>
        let transcript := extractText resp
        if transcript = [] then (.err ⟨goStr "Gemini returned an empty transcript"⟩, s2)
        else (.ok ⟨transcript, req.MessageId⟩, s2)
    (out.1, (env.osRemove audioFilePath out.2).2)

/-- Source `masterPrompt` (text-summarizer, lines 17-25). -/
def masterPrompt : GoString :=
  goStr ("You are an expert meeting assistant. Your job is to summarize the following " ++
    "transcript for a busy executive. \n\nROLE: Meeting Summarizer\nCONTEXT: The transcript " ++
    "is from a business meeting. Identify key points, action items, and overall sentiment." ++
    "\nTASK:\n1. List Key Points (bulleted)\n2. List Action Items (bulleted, with " ++
    "responsible person if possible)\n3. Summarize Sentiment (one sentence)\nCONSTRAINTS: " ++
    "Limit summary to 150 words. Use clear, professional language. Format as Markdown.")

/-- Source `textSummarizerServer.SummarizeText` (text-summarizer, lines 32-58). -/
def SummarizeText {σ : Type} (env : StageEnv σ) (req : SummarizationRequest) (s : σ) :
    Res SummarizationResponse × σ :=
  let fullPrompt := masterPrompt ++ goStr "\n\nTRANSCRIPT:\n" ++ req.Transcript
  match env.generateContent [.text fullPrompt] s with
  | (.err e, s1) => (.err ⟨goStr "failed to generate summary from Gemini: " ++ e.text⟩, s1)
  | (.ok resp, s1) =>
    let summary := extractText resp
    if summary = [] then (.err ⟨goStr "Gemini returned an empty summary"⟩, s1)
    else (.ok ⟨summary, req.MessageId⟩, s1)

/-! ## Composition and the temp-file store -/

/-- The gateway with its remote call served by `ProcessVoiceMessage` itself: the
pipeline of gateway and orchestrator. -/
def composed {σ : Type} (genv : GatewayEnv σ) (oenv : OrchestratorEnv σ) : GatewayEnv σ where
  hmacSha256 := genv.hmacSha256
  jsonUnmarshal := genv.jsonUnmarshal
  jsonDecodeMeta := genv.jsonDecodeMeta
  jsonMarshalReply := genv.jsonMarshalReply
  httpNewRequest := genv.httpNewRequest
  httpDo := genv.httpDo
  tempDir := genv.tempDir
  filepathJoin := genv.filepathJoin
  osCreate := genv.osCreate
  ioCopy := genv.ioCopy
  grpcDial := genv.grpcDial
  processVoiceMessage := fun req s =>
    ((ProcessVoiceMessage oenv req s).result, (ProcessVoiceMessage oenv req s).state)

/-- The temp-file store as explicit state: the files present (path, content) and the
log of `os.Remove` calls, in order. -/
structure TempStore where
  files : List (GoString × GoString)
  removeLog : List GoString
deriving DecidableEq, Repr

/-- The call `os.ReadFile` on the store. -/
def TempStore.readFile (path : GoString) (st : TempStore) : Res GoString × TempStore :=
  match st.files.lookup path with
  | some data => (.ok data, st)
  | none => (.err ⟨goStr "no such file or directory"⟩, st)

/-- The call `os.Remove` on the store: logged, and an error when the file is not there. -/
def TempStore.remove (path : GoString) (st : TempStore) : Option GoError × TempStore :=
  match st.files.lookup path with
  | some _ => (none, ⟨st.files.filter (fun f => f.1 ≠ path), st.removeLog ++ [path]⟩)
  | none => (some ⟨goStr "no such file or directory"⟩, ⟨st.files, st.removeLog ++ [path]⟩)

/-- The stages running on the store, with the model answering `model parts`. -/
def storeStage (model : List Part → Res GenerateContentResponse) : StageEnv TempStore where
  osReadFile := TempStore.readFile
  osRemove := TempStore.remove
  generateContent := fun parts st => (model parts, st)

/-- The orchestrator wired to the two stages of the repository, all on one store. -/
def storePipeline (model : List Part → Res GenerateContentResponse) :
    OrchestratorEnv TempStore where
  transcribeAudio := TranscribeAudio (storeStage model)
  summarizeText := SummarizeText (storeStage model)
  osRemove := TempStore.remove

/-- The orchestrator on the store with a transcription client whose call fails in
transport (the stage never runs). -/
def storeUnreachable : OrchestratorEnv TempStore where
  transcribeAudio := fun _ st => (.err ⟨goStr "connection refused"⟩, st)
  summarizeText := fun req st => (.ok ⟨req.Transcript, req.MessageId⟩, st)
  osRemove := TempStore.remove

/-! ## Reading a delivery and a call log -/

/-- All messages of a payload, in the order the three loops visit them. -/
def allMessages (payload : WebhookPayload) : List Message :=
  payload.Entry.flatMap (fun entry => entry.Changes.flatMap (fun change => change.Value.Messages))

/-- A message whose type is "audio". -/
def isAudioType (msg : Message) : Bool := msg.MsgType == goStr "audio"

/-- Sender and media id of a message the handler acts on: type "audio" and an audio
object present (the guard of line 183). -/
def audioJob (msg : Message) : Option (GoString × GoString) :=
  if msg.MsgType = goStr "audio" then msg.Audio.map (fun a => (msg.From, a.ID)) else none

/-- The audio jobs of a payload, in order. -/
def audioJobs (payload : WebhookPayload) : List (GoString × GoString) :=
  (allMessages payload).filterMap audioJob

/-- The outbound replies of a call log: recipient and text, in order. -/
def replies (calls : List Call) : List (GoString × GoString) :=
  calls.filterMap (fun c =>
    match c with
    | .reply _ _ recipientID messageText _ => some (recipientID, messageText)
    | _ => none)

/-! ## Outbound replies on the wire and the course of a job -/

/-- The URL of the messages endpoint of the configured account (gateway, line 122). -/
def replyURL (cfg : Config) : GoString :=
  goStr "https://graph.facebook.com/v19.0/" ++ cfg.PhoneNumberID ++ goStr "/messages"

/-- The outbound reply on the wire, in the spec's words: a POST of the JSON reply object
(recipient, text body) to the per-account messaging endpoint, bearer-token authenticated. -/
def replyRequest {σ : Type} (env : GatewayEnv σ) (cfg : Config)
    (recipientID messageText : GoString) : HttpRequest :=
  ⟨goStr "POST", replyURL cfg, goStr "Bearer " ++ cfg.ApiToken,
    some (goStr "application/json"), env.jsonMarshalReply recipientID messageText⟩

/-- The world after one outbound reply: the HTTP client has been handed the reply
request, unless `http.NewRequest` refuses to build it, in which case nothing went out. -/
def afterReply {σ : Type} (env : GatewayEnv σ) (cfg : Config)
    (recipientID messageText : GoString) (s : σ) : σ :=
  match env.httpNewRequest (goStr "POST") (replyURL cfg) with
  | some _ => s
  | none => (env.httpDo (replyRequest env cfg recipientID messageText) s).2

/-- The environment `env` with a recorder on the wire: next to the world of `env` it
keeps the requests handed to `http.DefaultClient.Do`, in order.  All operations answer
and act on the world as in `env`. -/
def recording {σ : Type} (env : GatewayEnv σ) : GatewayEnv (σ × List HttpRequest) where
  hmacSha256 := env.hmacSha256
  jsonUnmarshal := env.jsonUnmarshal
  jsonDecodeMeta := env.jsonDecodeMeta
  jsonMarshalReply := env.jsonMarshalReply
  httpNewRequest := env.httpNewRequest
  httpDo := fun req w => ((env.httpDo req w.1).1, ((env.httpDo req w.1).2, w.2 ++ [req]))
  tempDir := env.tempDir
  filepathJoin := env.filepathJoin
  osCreate := fun path w => ((env.osCreate path w.1).1, ((env.osCreate path w.1).2, w.2))
  ioCopy := fun path data w =>
    ((env.ioCopy path data w.1).1, ((env.ioCopy path data w.1).2, w.2))
  grpcDial := fun addr w => ((env.grpcDial addr w.1).1, ((env.grpcDial addr w.1).2, w.2))
  processVoiceMessage := fun req w =>
    ((env.processVoiceMessage req w.1).1, ((env.processVoiceMessage req w.1).2, w.2))

/-- The POST requests among recorded requests, in order. -/
def posts (log : List HttpRequest) : List HttpRequest :=
  log.filter (fun req => req.method = goStr "POST")

/-- The course of one audio job: who is owed a reply, whether the job failed, the text
owed, and the world once that is settled (before the reply goes out). -/
structure JobRun (σ : Type) where
  sender : GoString
  mediaID : GoString
  failed : Bool
  text : GoString
  state : σ

/-- The course of one audio job from world `s`, in the claim's words: the job fails at
the media download, at the connection to the orchestrator or at the orchestrator call,
and its sender is owed a failure notice; or the orchestrator answers, and the sender is
owed the summary of that answer. -/
def runJob {σ : Type} (cfg : Config) (env : GatewayEnv σ) (job : GoString × GoString)
    (s : σ) : JobRun σ :=
  match downloadWhatsAppMedia env job.2 cfg.ApiToken s with
  | (.err _, s1) => ⟨job.1, job.2, true, downloadNotice, s1⟩
  | (.ok filePath, s1) =>
    match env.grpcDial cfg.OrchestratorGRPCAddr s1 with
    | (some _, s2) => ⟨job.1, job.2, true, processNotice, s2⟩
    | (none, s2) =>
      match env.processVoiceMessage ⟨job.1, job.2, filePath⟩ s2 with
      | (.err _, s3) => ⟨job.1, job.2, true, processNotice, s3⟩
      | (.ok resp, s3) => ⟨job.1, job.2, false, resp.Summary, s3⟩

/-- The courses of a list of audio jobs taken one after the other from world `s`: each
job starts in the world left by the reply to the job before it, failed or not. -/
def deliverJobs {σ : Type} (cfg : Config) (env : GatewayEnv σ) :
    List (GoString × GoString) → σ → List (JobRun σ)
  | [], _ => []
  | job :: rest, s =>
    runJob cfg env job s ::
      deliverJobs cfg env rest
        (afterReply env cfg job.1 (runJob cfg env job s).text (runJob cfg env job s).state)

/-- The world after the jobs of a list were taken one after the other and answered. -/
def deliveredWorld {σ : Type} (cfg : Config) (env : GatewayEnv σ) :
    List (GoString × GoString) → σ → σ
  | [], s => s
  | job :: rest, s =>
    deliveredWorld cfg env rest
      (afterReply env cfg job.1 (runJob cfg env job s).text (runJob cfg env job s).state)

/-- The requests of the summarization calls in an orchestrator call log. -/
def summarizeRequests (calls : List OrchCall) : List SummarizationRequest :=
  calls.filterMap (fun c =>
    match c with
    | .summarize req _ => some req
    | _ => none)

/-- The paths of the `os.Remove` calls in an orchestrator call log. -/
def removedPaths (calls : List OrchCall) : List GoString :=
  calls.filterMap (fun c =>
    match c with
    | .remove path _ => some path
    | _ => none)

/-- The text parts of a list of parts, in order. -/
def textParts (parts : List Part) : List GoString :=
  parts.filterMap (fun part =>
    match part with
    | .text t => some t
    | _ => none)

/-- A model response with nothing to use: no candidates, a first candidate without
content, or a first candidate without text parts. -/
def noUsableContent (resp : GenerateContentResponse) : Prop :=
  match resp.Candidates with
  | [] => True
  | c :: _ =>
    match c.Content with
    | none => True
    | some content => textParts content.Parts = []

/-! ## Concrete deliveries, jobs and environments -/

/-- A sample configuration. -/
def demoCfg : Config :=
  ⟨goStr "8080", goStr "verify-me", goStr "app-secret", goStr "api-token",
    goStr "1234567890", goStr "orchestrator:50053"⟩

/-- A stand-in for HMAC-SHA256 with a two-byte tag. -/
def demoHmac : GoString → GoString → GoString := fun _ _ => [0xab, 0xcd]

/-- A gateway environment on a trivial world: every HTTP call answers 200, the body
parses to `payload`, the orchestrator call is `pvm`. -/
def demoGateway (payload : Res WebhookPayload)
    (pvm : ProcessRequest → Unit → Res ProcessResponse × Unit) : GatewayEnv Unit where
  hmacSha256 := demoHmac
  jsonUnmarshal := fun _ => payload
  jsonDecodeMeta := fun _ => .ok (goStr "https://media.example/m1")
  jsonMarshalReply := fun recipientID messageText => recipientID ++ messageText
  httpNewRequest := fun _ _ => none
  httpDo := fun _ s => (.ok ⟨200, goStr "200 OK", goStr "data"⟩, s)
  tempDir := goStr "/tmp"
  filepathJoin := fun dir name => dir ++ goStr "/" ++ name
  osCreate := fun _ s => (none, s)
  ioCopy := fun _ _ s => (none, s)
  grpcDial := fun _ s => (none, s)
  processVoiceMessage := pvm

/-- A POST delivery with the given signature header and body. -/
def demoPost (sig body : GoString) : Request :=
  ⟨goStr "POST", fun _ => [],
    fun key => if key = goStr "X-Hub-Signature-256" then sig else [], .ok body⟩

/-- A verification request with the given mode, challenge and verify token. -/
def demoGet (mode challenge token : GoString) : Request :=
  ⟨goStr "GET",
    fun key =>
      if key = goStr "hub.mode" then mode
      else if key = goStr "hub.challenge" then challenge
      else if key = goStr "hub.verify_token" then token
      else [],
    fun _ => [], .ok []⟩

/-- The signature header matching `demoHmac`. -/
def demoSig : GoString := goStr "sha256=abcd"

/-- A delivery with one message, of the given type and audio object. -/
def oneMessage (msgType : GoString) (audio : Option Audio) : WebhookPayload :=
  ⟨[⟨[⟨⟨[⟨goStr "15551234567", goStr "wamid.1", msgType, audio⟩]⟩⟩]⟩]⟩

/-- A delivery with three messages from one sender: audio "m1", a text message, audio "m2". -/
def threeMessages : WebhookPayload :=
  ⟨[⟨[⟨⟨[⟨goStr "15551234567", goStr "wamid.1", goStr "audio", some ⟨goStr "m1"⟩⟩,
          ⟨goStr "15551234567", goStr "wamid.2", goStr "text", none⟩]⟩⟩]⟩,
    ⟨[⟨⟨[⟨goStr "15551234567", goStr "wamid.3", goStr "audio", some ⟨goStr "m2"⟩⟩]⟩⟩]⟩]⟩

/-- An orchestrator call that succeeds for media "m1" and fails for every other media id. -/
def onlyFirst : ProcessRequest → Unit → Res ProcessResponse × Unit :=
  fun req s =>
    if req.MediaId = goStr "m1" then (.ok ⟨goStr "**Summary**: hello world"⟩, s)
    else (.err ⟨goStr "deadline exceeded"⟩, s)

/-- The validation of `http.NewRequest` as far as it matters here: a URL with a control
character is refused (`net/url: invalid control character in URL`). -/
def strictNewRequest : GoString → GoString → Option GoError :=
  fun _ url =>
    if url.any (fun b => decide (b.val < 0x20 ∨ b.val = 0x7f)) then
      some ⟨goStr "net/url: invalid control character in URL"⟩
    else none

/-- The sample gateway environment with the URL validation of `strictNewRequest`. -/
def strictGateway (payload : Res WebhookPayload)
    (pvm : ProcessRequest → Unit → Res ProcessResponse × Unit) : GatewayEnv Unit where
  hmacSha256 := demoHmac
  jsonUnmarshal := fun _ => payload
  jsonDecodeMeta := fun _ => .ok (goStr "https://media.example/m1")
  jsonMarshalReply := fun recipientID messageText => recipientID ++ messageText
  httpNewRequest := strictNewRequest
  httpDo := fun _ s => (.ok ⟨200, goStr "200 OK", goStr "data"⟩, s)
  tempDir := goStr "/tmp"
  filepathJoin := fun dir name => dir ++ goStr "/" ++ name
  osCreate := fun _ s => (none, s)
  ioCopy := fun _ _ s => (none, s)
  grpcDial := fun _ s => (none, s)
  processVoiceMessage := pvm

/-- The sample configuration with a tab left at the end of the phone number id. -/
def tabCfg : Config :=
  ⟨goStr "8080", goStr "verify-me", goStr "app-secret", goStr "api-token",
    goStr "1234567890\t", goStr "orchestrator:50053"⟩

/-- Stage clients on a trivial world returning fixed texts without error. -/
def fixedStages (transcript summary : GoString) : OrchestratorEnv Unit where
  transcribeAudio := fun req s => (.ok ⟨transcript, req.MessageId⟩, s)
  summarizeText := fun req s => (.ok ⟨summary, req.MessageId⟩, s)
  osRemove := fun _ s => (none, s)

/-- Stage clients on a trivial world whose calls fail. -/
def failingStages : OrchestratorEnv Unit where
  transcribeAudio := fun _ s => (.err ⟨goStr "unavailable"⟩, s)
  summarizeText := fun _ s => (.err ⟨goStr "unavailable"⟩, s)
  osRemove := fun _ s => (none, s)

/-- A model that answers every prompt with the single text part "hello world". -/
def helloModel : List Part → Res GenerateContentResponse :=
  fun _ => .ok ⟨[⟨some ⟨[.text (goStr "hello world")]⟩⟩]⟩

/-- A stage environment on a trivial world: the file reads as "OggS", the model
answers `answer`. -/
def demoStage (answer : Res GenerateContentResponse) : StageEnv Unit where
  osReadFile := fun _ s => (.ok (goStr "OggS"), s)
  osRemove := fun _ s => (none, s)
  generateContent := fun _ s => (answer, s)

/-- The job of the sample delivery. -/
def demoJob : ProcessRequest := ⟨goStr "15551234567", goStr "m1", goStr "/tmp/m1.ogg"⟩

/-- A store holding the downloaded audio of the sample job. -/
def demoStore : TempStore := ⟨[(goStr "/tmp/m1.ogg", goStr "OggS")], []⟩

/-! ## Signature validation: proofs -/

theorem constantTimeByteEq_zero (v : Nat) (hv : v < 256) :
    constantTimeByteEq v 0 = 1 ↔ v = 0 := by
  unfold constantTimeByteEq
  rw [Nat.xor_zero, Nat.shiftRight_eq_div_pow]
  constructor
  · intro h
    by_contra hne
    have h1 : (v + 2 ^ 32 - 1) % 2 ^ 32 = v - 1 := by omega
    rw [h1] at h
    omega
  · rintro rfl
    norm_num

theorem orFold_lt (ps : List (Byte × Byte)) (v : Nat) (hv : v < 2 ^ 8) :
    ps.foldl (fun v p => v ||| (p.1.val ^^^ p.2.val)) v < 2 ^ 8 := by
  induction ps generalizing v with
  | nil => simpa using hv
  | cons p ps ih =>
    simp only [List.foldl_cons]
    apply ih
    exact Nat.or_lt_two_pow hv (Nat.xor_lt_two_pow (by simp) (by simp))

theorem or_eq_zero_iff (a b : Nat) : a ||| b = 0 ↔ a = 0 ∧ b = 0 := by
  constructor
  · intro h
    have key : ∀ i, a.testBit i = false ∧ b.testBit i = false := by
      intro i
      have hi := congrArg (fun n => Nat.testBit n i) h
      simpa [Nat.testBit_or] using hi
    exact ⟨Nat.eq_of_testBit_eq (fun i => by simp [(key i).1]),
      Nat.eq_of_testBit_eq (fun i => by simp [(key i).2])⟩
  · rintro ⟨rfl, rfl⟩
    rfl

theorem orFold_eq_zero (ps : List (Byte × Byte)) (v : Nat) :
    ps.foldl (fun v p => v ||| (p.1.val ^^^ p.2.val)) v = 0 ↔ v = 0 ∧ ∀ p ∈ ps, p.1 = p.2 := by
  induction ps generalizing v with
  | nil => simp
  | cons p ps ih =>
    simp only [List.foldl_cons, ih, List.mem_cons, forall_eq_or_imp, or_eq_zero_iff,
      Nat.xor_eq_zero]
    constructor
    · rintro ⟨⟨h1, h2⟩, h3⟩
      exact ⟨h1, Fin.ext h2, h3⟩
    · rintro ⟨h1, h2, h3⟩
      exact ⟨⟨h1, by rw [h2]⟩, h3⟩

theorem zip_all_eq (x y : GoString) (h : x.length = y.length) :
    (∀ p ∈ x.zip y, p.1 = p.2) ↔ x = y := by
  induction x generalizing y with
  | nil => cases y <;> simp_all
  | cons a x ih =>
    cases y with
    | nil => simp at h
    | cons b y =>
      simp only [List.length_cons, add_left_inj] at h
      constructor
      · intro hall
        have hab : a = b := hall (a, b) (by simp)
        have hxy : x = y := (ih y h).1 (fun p hp => hall p (by simp [hp]))
        rw [hab, hxy]
      · intro e p _
        simp only [List.cons.injEq] at e
        have := (ih y h).2 e.2
        rcases ‹p ∈ List.zip (a :: x) (b :: y)› with _ | ⟨_, hp⟩
        · exact e.1
        · exact this p hp

/-- The constant-time comparison of `hmac.Equal` decides equality of the two byte strings. -/
theorem hmacEqual_iff (x y : GoString) : hmacEqual x y = true ↔ x = y := by
  unfold hmacEqual constantTimeCompare
  by_cases h : x.length = y.length
  · simp only [h, ne_eq, not_true_eq_false, if_false, beq_iff_eq]
    rw [constantTimeByteEq_zero _ (orFold_lt _ 0 (by norm_num)), orFold_eq_zero]
    simp only [true_and]
    exact zip_all_eq x y h
  · have : x ≠ y := fun e => h (by rw [e])
    simp [h, this]

/-- An empty signature header never validates: the expected value starts with "sha256=". -/
theorem validateSignature_empty (hmacSha256 : GoString → GoString → GoString)
    (appSecret body : GoString) : validateSignature hmacSha256 appSecret body [] = false := by
  rw [Bool.eq_false_iff]
  intro h
  unfold validateSignature at h
  rw [hmacEqual_iff] at h
  have hlen := congrArg List.length h
  have h7 : (goStr "sha256=").length = 7 := by decide
  simp [h7] at hlen

theorem hexDigits (v : Byte) :
    hextable.getD (v.val >>> 4) 0 ∈ hextable ∧ hextable.getD (v.val &&& 0x0f) 0 ∈ hextable := by
  have table : ∀ i : Fin 16, hextable.getD i.val 0 ∈ hextable := by decide
  have h1 : v.val >>> 4 < 16 := by
    rw [Nat.shiftRight_eq_div_pow]
    have := v.isLt
    omega
  have h2 : v.val &&& 0x0f < 16 := Nat.lt_succ_of_le Nat.and_le_right
  exact ⟨table ⟨_, h1⟩, table ⟨_, h2⟩⟩

/-- The hex encoding has two characters per byte, all among "0123456789abcdef". -/
theorem hexEncodeToString_digits (src : GoString) :
    (hexEncodeToString src).length = 2 * src.length ∧
      ∀ b ∈ hexEncodeToString src, b ∈ goStr "0123456789abcdef" := by
  induction src with
  | nil => simp [hexEncodeToString]
  | cons v src ih =>
    have hv := hexDigits v
    simp only [hexEncodeToString, List.flatMap_cons, List.length_append, List.length_cons,
      List.length_nil, List.mem_append, List.mem_cons] at ih ⊢
    refine ⟨by omega, ?_⟩
    rintro b (hb | hb)
    · rcases hb with rfl | rfl | hb
      · exact hv.1
      · exact hv.2
      · simp at hb
    · exact ih.2 b hb

/-- C1: `validateSignature K B H` is true exactly when `H` is "sha256=" followed by the
lowercase hex encoding of the HMAC-SHA256 of `B` under key `K` (the HMAC being any
function of key and message).  So the correctly computed signature is accepted and every
other header value is rejected.  The encoding has two characters per byte of the tag, all
among "0123456789abcdef". -/
theorem C1_validateSignature_iff (hmacSha256 : GoString → GoString → GoString)
    (K B H : GoString) :
    (validateSignature hmacSha256 K B H = true
        ↔ H = goStr "sha256=" ++ hexEncodeToString (hmacSha256 K B))
      ∧ validateSignature hmacSha256 K B
          (goStr "sha256=" ++ hexEncodeToString (hmacSha256 K B)) = true
      ∧ (H ≠ goStr "sha256=" ++ hexEncodeToString (hmacSha256 K B)
          → validateSignature hmacSha256 K B H = false)
      ∧ (hexEncodeToString (hmacSha256 K B)).length = 2 * (hmacSha256 K B).length
      ∧ (∀ b ∈ hexEncodeToString (hmacSha256 K B), b ∈ goStr "0123456789abcdef") := by
  have key : ∀ X, validateSignature hmacSha256 K B X = true
      ↔ X = goStr "sha256=" ++ hexEncodeToString (hmacSha256 K B) := by
    intro X
    unfold validateSignature
    rw [hmacEqual_iff]
    exact eq_comm
  refine ⟨key H, (key _).2 rfl, ?_, hexEncodeToString_digits _⟩
  intro hne
  rw [Bool.eq_false_iff]
  exact fun h => hne ((key H).1 h)

/-! ## The webhook handler: status codes -/

/-- C2: a POST delivery whose body was read as `body` is answered 403 when the signature
header does not validate against `body` (whatever the body is), 400 when it validates and
the body does not parse, and 200 otherwise, whatever the downloads, orchestrator calls
and replies of the individual messages do. -/
theorem C2_post_status {σ : Type} (cfg : Config) (env : GatewayEnv σ)
    (query header : GoString → GoString) (body : GoString) (s : σ) :
    (webhookHandler cfg env ⟨goStr "POST", query, header, .ok body⟩ s).status =
      if validateSignature env.hmacSha256 cfg.AppSecret body
          (header (goStr "X-Hub-Signature-256")) = true then
        (match env.jsonUnmarshal body with
          | .ok _ => 200
          | .err _ => 400)
      else 403 := by
  have hne : goStr "POST" ≠ goStr "GET" := by decide
  unfold webhookHandler
  simp only [hne, if_false, if_true]
  by_cases hv : validateSignature env.hmacSha256 cfg.AppSecret body
      (header (goStr "X-Hub-Signature-256")) = true
  · simp only [hv, not_true_eq_false, if_false, if_true]
    cases env.jsonUnmarshal body <;> rfl
  · simp [hv]

/-- C3: whatever the app secret and the body, a POST delivery whose signature header is
the empty string is answered 403; the handler makes no call at all (no parse of the body,
no media fetch, no orchestrator call, no reply) and leaves the world as it was. -/
theorem C3_absent_signature {σ : Type} (cfg : Config) (env : GatewayEnv σ)
    (query header : GoString → GoString) (body : GoString) (s : σ)
    (habsent : header (goStr "X-Hub-Signature-256") = []) :
    (webhookHandler cfg env ⟨goStr "POST", query, header, .ok body⟩ s).status = 403
      ∧ (webhookHandler cfg env ⟨goStr "POST", query, header, .ok body⟩ s).body = []
      ∧ (webhookHandler cfg env ⟨goStr "POST", query, header, .ok body⟩ s).calls = []
      ∧ (webhookHandler cfg env ⟨goStr "POST", query, header, .ok body⟩ s).state = s := by
  have hne : goStr "POST" ≠ goStr "GET" := by decide
  have hv := validateSignature_empty env.hmacSha256 cfg.AppSecret body
  unfold webhookHandler
  simp [hne, habsent, hv]

/-- Witness of C3: the sample delivery without a signature header, under an empty app secret. -/
theorem C3_absent_signature_witness :
    (webhookHandler { demoCfg with AppSecret := [] }
        (demoGateway (.ok (oneMessage (goStr "audio") (some ⟨goStr "m1"⟩)))
          (fun _ s => (.ok ⟨goStr "summary"⟩, s)))
        ⟨goStr "POST", fun _ => [], fun _ => [], .ok (goStr "body")⟩ ()).status = 403
      ∧ (webhookHandler { demoCfg with AppSecret := [] }
        (demoGateway (.ok (oneMessage (goStr "audio") (some ⟨goStr "m1"⟩)))
          (fun _ s => (.ok ⟨goStr "summary"⟩, s)))
        ⟨goStr "POST", fun _ => [], fun _ => [], .ok (goStr "body")⟩ ()).calls = [] :=
  have h := C3_absent_signature { demoCfg with AppSecret := [] }
    (demoGateway (.ok (oneMessage (goStr "audio") (some ⟨goStr "m1"⟩)))
      (fun _ s => (.ok ⟨goStr "summary"⟩, s)))
    (fun _ => []) (fun _ => []) (goStr "body") () rfl
  ⟨h.1, h.2.2.1⟩

/-- C4: a GET verification request is answered with status 200 and the challenge as body
exactly when `hub.mode` is "subscribe" and `hub.verify_token` equals the configured verify
token; in every other case with status 403 and an empty body.  With mode "subscribe",
challenge "123" and the matching token the answer is 200 with body "123". -/
theorem C4_verification {σ : Type} (cfg : Config) (env : GatewayEnv σ)
    (query header : GoString → GoString) (readBody : Res GoString) (s : σ) :
    ((query (goStr "hub.mode") = goStr "subscribe"
          ∧ query (goStr "hub.verify_token") = cfg.VerifyToken) →
        (webhookHandler cfg env ⟨goStr "GET", query, header, readBody⟩ s).status = 200
        ∧ (webhookHandler cfg env ⟨goStr "GET", query, header, readBody⟩ s).body
            = query (goStr "hub.challenge"))
      ∧ (¬ (query (goStr "hub.mode") = goStr "subscribe"
          ∧ query (goStr "hub.verify_token") = cfg.VerifyToken) →
        (webhookHandler cfg env ⟨goStr "GET", query, header, readBody⟩ s).status = 403
        ∧ (webhookHandler cfg env ⟨goStr "GET", query, header, readBody⟩ s).body = [])
      ∧ ((webhookHandler demoCfg env (demoGet (goStr "subscribe") (goStr "123")
            demoCfg.VerifyToken) s).status = 200
        ∧ (webhookHandler demoCfg env (demoGet (goStr "subscribe") (goStr "123")
            demoCfg.VerifyToken) s).body = goStr "123") := by
  refine ⟨?_, ?_, ?_, ?_⟩
  · intro hc
    unfold webhookHandler
    simp [hc]
  · intro hc
    unfold webhookHandler
    simp [hc]
  · unfold webhookHandler
    simp only [demoGet, if_true]
    have h1 : goStr "hub.challenge" ≠ goStr "hub.mode" := by decide
    have h2 : goStr "hub.verify_token" ≠ goStr "hub.mode" := by decide
    have h3 : goStr "hub.verify_token" ≠ goStr "hub.challenge" := by decide
    simp [h1, h2, h3]
  · unfold webhookHandler
    simp only [demoGet, if_true]
    have h1 : goStr "hub.challenge" ≠ goStr "hub.mode" := by decide
    have h2 : goStr "hub.verify_token" ≠ goStr "hub.mode" := by decide
    have h3 : goStr "hub.verify_token" ≠ goStr "hub.challenge" := by decide
    simp [h1, h2, h3]

/-! ## The stages: what a successful call returns -/

theorem textFold_eq (parts : List Part) (acc : GoString) :
    parts.foldl (fun acc part =>
      match part with
      | .text t => acc ++ t
      | _ => acc) acc = acc ++ (textParts parts).flatten := by
  induction parts generalizing acc with
  | nil => simp [textParts]
  | cons part parts ih =>
    cases part <;> simp [textParts, ih]

/-- The extraction loop yields the text parts of the first candidate, appended in order,
and nothing when there is no first candidate or it has no content. -/
theorem extractText_eq (resp : GenerateContentResponse) :
    extractText resp =
      match resp.Candidates with
      | [] => []
      | c :: _ =>
        match c.Content with
        | none => []
        | some content => (textParts content.Parts).flatten := by
  unfold extractText
  cases resp.Candidates with
  | nil => rfl
  | cons c rest =>
    cases hc : c.Content with
    | none => simp [hc]
    | some content => simp [hc, textFold_eq]

theorem extractText_noUsable (resp : GenerateContentResponse) (h : noUsableContent resp) :
    extractText resp = [] := by
  rw [extractText_eq]
  unfold noUsableContent at h
  cases hcs : resp.Candidates with
  | nil => rfl
  | cons c rest =>
    rw [hcs] at h
    cases hc : c.Content with
    | none => simp [hc]
    | some content =>
      simp only [hc] at h
      simp [hc, h]

/-- A transcription that returns without error read the file, got a model response and
returns its extracted text, which is not empty, under the request's message id. -/
theorem TranscribeAudio_ok {σ : Type} (env : StageEnv σ) (req : TranscriptionRequest)
    (s s' : σ) (r : TranscriptionResponse) (h : TranscribeAudio env req s = (.ok r, s')) :
    r.Transcript ≠ [] ∧ r.MessageId = req.MessageId ∧
      ∃ audioData s1 resp s2,
        env.osReadFile req.AudioFilePath s = (.ok audioData, s1) ∧
        env.generateContent [.blob (goStr "audio/ogg") audioData, .text transcribePrompt] s1
          = (.ok resp, s2) ∧
        r.Transcript = extractText resp := by
  rcases hread : env.osReadFile req.AudioFilePath s with ⟨_ | e, s1⟩
  · rename_i audioData
    rcases hgen : env.generateContent
        [.blob (goStr "audio/ogg") audioData, .text transcribePrompt] s1 with ⟨_ | e, s2⟩
    · rename_i resp
      simp only [TranscribeAudio, hread, hgen] at h
      by_cases hempty : extractText resp = []
      · simp [hempty] at h
      · simp only [hempty, if_false, Prod.mk.injEq, Res.ok.injEq] at h
        refine ⟨?_, ?_, audioData, s1, resp, s2, rfl, hgen, ?_⟩
        · rw [← h.1]; exact hempty
        · rw [← h.1]
        · rw [← h.1]
    · simp [TranscribeAudio, hread, hgen] at h
  · simp [TranscribeAudio, hread] at h

/-- A summarization that returns without error got a model response and returns its
extracted text, which is not empty, under the request's message id. -/
theorem SummarizeText_ok {σ : Type} (env : StageEnv σ) (req : SummarizationRequest)
    (s s' : σ) (r : SummarizationResponse) (h : SummarizeText env req s = (.ok r, s')) :
    r.Summary ≠ [] ∧ r.MessageId = req.MessageId ∧
      ∃ resp,
        env.generateContent
          [.text (masterPrompt ++ goStr "\n\nTRANSCRIPT:\n" ++ req.Transcript)] s
          = (.ok resp, s') ∧
        r.Summary = extractText resp := by
  rcases hgen : env.generateContent
      [.text (masterPrompt ++ goStr "\n\nTRANSCRIPT:\n" ++ req.Transcript)] s with ⟨_ | e, s1⟩
  · rename_i resp
    simp only [SummarizeText, hgen] at h
    by_cases hempty : extractText resp = []
    · simp [hempty] at h
    · simp only [hempty, if_false, Prod.mk.injEq, Res.ok.injEq] at h
      refine ⟨?_, ?_, resp, ?_, ?_⟩
      · rw [← h.1]; exact hempty
      · rw [← h.1]
      · rw [← h.2]
      · rw [← h.1]
  · simp only [SummarizeText, hgen] at h
    simp at h

/-- C10: a stage call that returns without error returns a non-empty text, equal to the
text parts of the model's first candidate appended in order, under the request's message
id unchanged; and when the model's response has no candidates, a first candidate without
content, or no text parts, the stage returns an error. -/
theorem C10_stage_results {σ : Type} (env : StageEnv σ) :
    (∀ req s r s', TranscribeAudio env req s = (.ok r, s') →
        r.Transcript ≠ [] ∧ r.MessageId = req.MessageId ∧
        ∃ audioData s1 resp s2 c rest content,
          env.osReadFile req.AudioFilePath s = (.ok audioData, s1) ∧
          env.generateContent [.blob (goStr "audio/ogg") audioData, .text transcribePrompt] s1
            = (.ok resp, s2) ∧
          resp.Candidates = c :: rest ∧ c.Content = some content ∧
          r.Transcript = (textParts content.Parts).flatten)
      ∧ (∀ req s r s', SummarizeText env req s = (.ok r, s') →
        r.Summary ≠ [] ∧ r.MessageId = req.MessageId ∧
        ∃ resp c rest content,
          env.generateContent
            [.text (masterPrompt ++ goStr "\n\nTRANSCRIPT:\n" ++ req.Transcript)] s
            = (.ok resp, s') ∧
          resp.Candidates = c :: rest ∧ c.Content = some content ∧
          r.Summary = (textParts content.Parts).flatten)
      ∧ (∀ req s audioData s1 resp s2,
          env.osReadFile req.AudioFilePath s = (.ok audioData, s1) →
          env.generateContent [.blob (goStr "audio/ogg") audioData, .text transcribePrompt] s1
            = (.ok resp, s2) →
          noUsableContent resp →
          (TranscribeAudio env req s).1 = .err ⟨goStr "Gemini returned an empty transcript"⟩)
      ∧ (∀ req s resp s1,
          env.generateContent
            [.text (masterPrompt ++ goStr "\n\nTRANSCRIPT:\n" ++ req.Transcript)] s
            = (.ok resp, s1) →
          noUsableContent resp →
          (SummarizeText env req s).1 = .err ⟨goStr "Gemini returned an empty summary"⟩) := by
  have shape : ∀ resp : GenerateContentResponse, extractText resp ≠ [] →
      ∃ c rest content, resp.Candidates = c :: rest ∧ c.Content = some content ∧
        extractText resp = (textParts content.Parts).flatten := by
    intro resp hne
    rw [extractText_eq] at hne ⊢
    cases hcs : resp.Candidates with
    | nil => simp [hcs] at hne
    | cons c rest =>
      cases hc : c.Content with
      | none => simp [hcs, hc] at hne
      | some content => exact ⟨c, rest, content, rfl, hc, by simp [hc]⟩
  refine ⟨?_, ?_, ?_, ?_⟩
  · intro req s r s' h
    obtain ⟨hne, hid, audioData, s1, resp, s2, hread, hgen, htext⟩ :=
      TranscribeAudio_ok env req s s' r h
    obtain ⟨c, rest, content, hcs, hc, hx⟩ := shape resp (by rw [← htext]; exact hne)
    exact ⟨hne, hid, audioData, s1, resp, s2, c, rest, content, hread, hgen, hcs, hc,
      by rw [htext, hx]⟩
  · intro req s r s' h
    obtain ⟨hne, hid, resp, hgen, htext⟩ := SummarizeText_ok env req s s' r h
    obtain ⟨c, rest, content, hcs, hc, hx⟩ := shape resp (by rw [← htext]; exact hne)
    exact ⟨hne, hid, resp, c, rest, content, hgen, hcs, hc, by rw [htext, hx]⟩
  · intro req s audioData s1 resp s2 hread hgen hno
    simp only [TranscribeAudio, hread, hgen, extractText_noUsable resp hno, if_true]
  · intro req s resp s1 hgen hno
    simp only [SummarizeText, hgen, extractText_noUsable resp hno, if_true]

/-- Witness of C10: with the model answering "hello world", the transcription of the
sample file returns that text under message id "m1". -/
theorem C10_stage_results_witness :
    TranscribeAudio (demoStage (helloModel [])) ⟨goStr "/tmp/m1.ogg", goStr "m1"⟩ ()
        = (.ok ⟨goStr "hello world", goStr "m1"⟩, ())
      ∧ (⟨goStr "hello world", goStr "m1"⟩ : TranscriptionResponse).Transcript ≠ []
      ∧ (⟨goStr "hello world", goStr "m1"⟩ : TranscriptionResponse).MessageId = goStr "m1" :=
  have h : TranscribeAudio (demoStage (helloModel [])) ⟨goStr "/tmp/m1.ogg", goStr "m1"⟩ ()
      = (.ok ⟨goStr "hello world", goStr "m1"⟩, ()) := by decide
  have c := (C10_stage_results (demoStage (helloModel []))).1 _ _ _ _ h
  ⟨h, c.1, c.2.1⟩

/-! ## The orchestrator -/

theorem ProcessVoiceMessage_transcribe_err {σ : Type} (env : OrchestratorEnv σ)
    (req : ProcessRequest) (s s1 : σ) (e : GoError)
    (h : env.transcribeAudio ⟨req.AudioFilePath, req.MediaId⟩ s = (.err e, s1)) :
    ProcessVoiceMessage env req s =
      ⟨.err (internalError (goStr "audio processor error: ") e), s1,
        [.transcribe ⟨req.AudioFilePath, req.MediaId⟩ (.err e)]⟩ := by
  simp only [ProcessVoiceMessage, h]

theorem ProcessVoiceMessage_summarize_err {σ : Type} (env : OrchestratorEnv σ)
    (req : ProcessRequest) (s s1 s2 : σ) (tr : TranscriptionResponse) (e : GoError)
    (h : env.transcribeAudio ⟨req.AudioFilePath, req.MediaId⟩ s = (.ok tr, s1))
    (h2 : env.summarizeText ⟨tr.Transcript, req.MediaId⟩ s1 = (.err e, s2)) :
    ProcessVoiceMessage env req s =
      ⟨.err (internalError (goStr "text summarizer error: ") e), s2,
        [.transcribe ⟨req.AudioFilePath, req.MediaId⟩ (.ok tr),
          .summarize ⟨tr.Transcript, req.MediaId⟩ (.err e)]⟩ := by
  simp only [ProcessVoiceMessage, h, h2]

theorem ProcessVoiceMessage_ok {σ : Type} (env : OrchestratorEnv σ)
    (req : ProcessRequest) (s s1 s2 : σ) (tr : TranscriptionResponse)
    (sr : SummarizationResponse)
    (h : env.transcribeAudio ⟨req.AudioFilePath, req.MediaId⟩ s = (.ok tr, s1))
    (h2 : env.summarizeText ⟨tr.Transcript, req.MediaId⟩ s1 = (.ok sr, s2)) :
    (ProcessVoiceMessage env req s).result = .ok ⟨sr.Summary⟩ ∧
      summarizeRequests (ProcessVoiceMessage env req s).calls = [⟨tr.Transcript, req.MediaId⟩] ∧
      removedPaths (ProcessVoiceMessage env req s).calls
        = (if req.AudioFilePath ≠ [] then [req.AudioFilePath] else []) ∧
      (ProcessVoiceMessage env req s).state
        = (if req.AudioFilePath ≠ [] then (env.osRemove req.AudioFilePath s2).2 else s2) := by
  simp only [ProcessVoiceMessage, h, h2]
  by_cases hp : req.AudioFilePath = []
  · simp [hp, summarizeRequests, removedPaths]
  · simp [hp, summarizeRequests, removedPaths]

/-- A successful run went through a transcription and a summarization that both
returned without error, and carries the summary of the latter. -/
theorem ProcessVoiceMessage_ok_inv {σ : Type} (env : OrchestratorEnv σ)
    (req : ProcessRequest) (s : σ) (resp : ProcessResponse)
    (hres : (ProcessVoiceMessage env req s).result = .ok resp) :
    ∃ tr s1 sr s2, env.transcribeAudio ⟨req.AudioFilePath, req.MediaId⟩ s = (.ok tr, s1)
      ∧ env.summarizeText ⟨tr.Transcript, req.MediaId⟩ s1 = (.ok sr, s2)
      ∧ resp.Summary = sr.Summary := by
  rcases h : env.transcribeAudio ⟨req.AudioFilePath, req.MediaId⟩ s with ⟨_ | e, s1⟩
  · rename_i tr
    rcases h2 : env.summarizeText ⟨tr.Transcript, req.MediaId⟩ s1 with ⟨_ | e, s2⟩
    · rename_i sr
      rw [(ProcessVoiceMessage_ok env req s s1 s2 tr sr h h2).1] at hres
      simp only [Res.ok.injEq] at hres
      exact ⟨tr, s1, sr, s2, rfl, h2, by rw [← hres]⟩
    · rw [ProcessVoiceMessage_summarize_err env req s s1 s2 tr e h h2] at hres
      simp at hres
  · rw [ProcessVoiceMessage_transcribe_err env req s s1 e h] at hres
    simp at hres

theorem TempStore.remove_log (path : GoString) (st : TempStore) :
    (TempStore.remove path st).2.removeLog = st.removeLog ++ [path] := by
  unfold TempStore.remove
  cases st.files.lookup path <;> rfl

/-- On the store, a transcription by the repository's stage that returns without error
has called `os.Remove` on the audio file once. -/
theorem storeStage_transcribe_log (model : List Part → Res GenerateContentResponse)
    (req : TranscriptionRequest) (st st1 : TempStore) (tr : TranscriptionResponse)
    (h : TranscribeAudio (storeStage model) req st = (.ok tr, st1)) :
    st1.removeLog = st.removeLog ++ [req.AudioFilePath] := by
  cases hl : st.files.lookup req.AudioFilePath with
  | none => simp [TranscribeAudio, storeStage, TempStore.readFile, hl] at h
  | some data =>
    cases hm : model [.blob (goStr "audio/ogg") data, .text transcribePrompt] with
    | err e => simp [TranscribeAudio, storeStage, TempStore.readFile, hl, hm] at h
    | ok resp =>
      simp only [TranscribeAudio, storeStage, TempStore.readFile, hl, hm] at h
      by_cases he : extractText resp = []
      · simp [he] at h
      · simp only [he, if_false, Prod.mk.injEq] at h
        rw [← h.2]
        exact TempStore.remove_log _ _

/-- On the store, a summarization by the repository's stage leaves the store as it is. -/
theorem storeStage_summarize_state (model : List Part → Res GenerateContentResponse)
    (req : SummarizationRequest) (st : TempStore) :
    (SummarizeText (storeStage model) req st).2 = st := by
  simp only [SummarizeText, storeStage]
  cases model [.text (masterPrompt ++ goStr "\n\nTRANSCRIPT:\n" ++ req.Transcript)] with
  | err e => rfl
  | ok resp => dsimp only; split <;> rfl

/-- C5 (as the code has it): the summarization stage is invoked only after a transcription
call that returned without error.  When the transcription call fails, the result is the
transcription failure (an Internal status error) and summarization is called zero times.
When it returns without error, its transcript, empty or not, is passed to the
summarization stage exactly once: the orchestrator does not test it for emptiness.  With
the repository's transcription stage as the client that transcript is never empty. -/
theorem C5_summarize_after_transcription {σ : Type} (env : OrchestratorEnv σ)
    (req : ProcessRequest) (s : σ) :
    (∀ e s1, env.transcribeAudio ⟨req.AudioFilePath, req.MediaId⟩ s = (.err e, s1) →
        (ProcessVoiceMessage env req s).result
            = .err (internalError (goStr "audio processor error: ") e)
        ∧ summarizeRequests (ProcessVoiceMessage env req s).calls = [])
      ∧ (∀ tr s1, env.transcribeAudio ⟨req.AudioFilePath, req.MediaId⟩ s = (.ok tr, s1) →
        summarizeRequests (ProcessVoiceMessage env req s).calls
            = [⟨tr.Transcript, req.MediaId⟩])
      ∧ (∀ senv : StageEnv σ, env.transcribeAudio = TranscribeAudio senv →
        ∀ sreq ∈ summarizeRequests (ProcessVoiceMessage env req s).calls,
          sreq.Transcript ≠ []) := by
  have okCase : ∀ tr s1, env.transcribeAudio ⟨req.AudioFilePath, req.MediaId⟩ s = (.ok tr, s1) →
      summarizeRequests (ProcessVoiceMessage env req s).calls
        = [⟨tr.Transcript, req.MediaId⟩] := by
    intro tr s1 h
    rcases h2 : env.summarizeText ⟨tr.Transcript, req.MediaId⟩ s1 with ⟨_ | e, s2⟩
    · exact (ProcessVoiceMessage_ok env req s s1 s2 tr _ h h2).2.1
    · rw [ProcessVoiceMessage_summarize_err env req s s1 s2 tr e h h2]
      rfl
  have errCase : ∀ e s1, env.transcribeAudio ⟨req.AudioFilePath, req.MediaId⟩ s = (.err e, s1) →
      (ProcessVoiceMessage env req s).result
          = .err (internalError (goStr "audio processor error: ") e)
      ∧ summarizeRequests (ProcessVoiceMessage env req s).calls = [] := by
    intro e s1 h
    rw [ProcessVoiceMessage_transcribe_err env req s s1 e h]
    exact ⟨rfl, rfl⟩
  refine ⟨errCase, okCase, ?_⟩
  intro senv hsenv sreq hmem
  rcases h : env.transcribeAudio ⟨req.AudioFilePath, req.MediaId⟩ s with ⟨_ | e, s1⟩
  · rename_i tr
    rw [okCase tr s1 h] at hmem
    simp only [List.mem_singleton] at hmem
    rw [hsenv] at h
    rw [hmem]
    exact (TranscribeAudio_ok senv _ s s1 tr h).1
  · rw [(errCase e s1 h).2] at hmem
    simp at hmem

/-- Counterexample to C5 as stated: a transcription client that returns an empty transcript
without error.  The orchestrator returns no error and calls the summarization stage once,
with the empty transcript. -/
theorem C5_counterexample :
    (fixedStages [] (goStr "summary")).transcribeAudio
        ⟨demoJob.AudioFilePath, demoJob.MediaId⟩ () = (.ok ⟨[], goStr "m1"⟩, ())
      ∧ (ProcessVoiceMessage (fixedStages [] (goStr "summary")) demoJob ()).result
        = .ok ⟨goStr "summary"⟩
      ∧ summarizeRequests
          (ProcessVoiceMessage (fixedStages [] (goStr "summary")) demoJob ()).calls
        = [⟨[], goStr "m1"⟩] := by
  decide

/-- C6 (as the code has it): when the summarization call fails, the result is the
summarization failure (an Internal status error) and no summary.  A successful result
carries exactly the summary text the summarization client returned, empty or not: the
orchestrator does not test it for emptiness.  With the repository's summarization stage as
the client every successful result carries a non-empty summary. -/
theorem C6_summarization_failure {σ : Type} (env : OrchestratorEnv σ)
    (req : ProcessRequest) (s : σ) :
    (∀ tr s1 e s2, env.transcribeAudio ⟨req.AudioFilePath, req.MediaId⟩ s = (.ok tr, s1) →
        env.summarizeText ⟨tr.Transcript, req.MediaId⟩ s1 = (.err e, s2) →
        (ProcessVoiceMessage env req s).result
            = .err (internalError (goStr "text summarizer error: ") e))
      ∧ (∀ resp, (ProcessVoiceMessage env req s).result = .ok resp →
        ∃ tr s1 sr s2, env.transcribeAudio ⟨req.AudioFilePath, req.MediaId⟩ s = (.ok tr, s1)
          ∧ env.summarizeText ⟨tr.Transcript, req.MediaId⟩ s1 = (.ok sr, s2)
          ∧ resp.Summary = sr.Summary)
      ∧ (∀ senv : StageEnv σ, env.summarizeText = SummarizeText senv →
        ∀ resp, (ProcessVoiceMessage env req s).result = .ok resp → resp.Summary ≠ []) := by
  have okCase := ProcessVoiceMessage_ok_inv env req s
  refine ⟨?_, okCase, ?_⟩
  · intro tr s1 e s2 h h2
    rw [ProcessVoiceMessage_summarize_err env req s s1 s2 tr e h h2]
  · intro senv hsenv resp hres
    obtain ⟨tr, s1, sr, s2, _, h2, hsum⟩ := okCase resp hres
    rw [hsenv] at h2
    rw [hsum]
    exact (SummarizeText_ok senv _ s1 s2 sr h2).1

/-- Counterexample to C6 as stated: a summarization client that returns an empty summary
without error.  The orchestrator returns success with an empty summary. -/
theorem C6_counterexample :
    (fixedStages (goStr "hello world") []).summarizeText
        ⟨goStr "hello world", demoJob.MediaId⟩ () = (.ok ⟨[], goStr "m1"⟩, ())
      ∧ (ProcessVoiceMessage (fixedStages (goStr "hello world") []) demoJob ()).result
        = .ok ⟨[]⟩ := by
  decide

/-- C7, the code at two jobs with a non-empty audio file path.  With the repository's
stages on one store and both succeeding, `os.Remove` is called twice on the file: once by
the transcription stage on its return, once more by the orchestrator's cleanup step.  With
a transcription call that fails in transport, the orchestrator returns without any
removal and the file stays in the store.  On both failure exits the orchestrator itself
calls no removal, for every behaviour of the clients; and with the repository's stages on
one store every successful run of a job with a non-empty path has called `os.Remove` on
that path exactly twice. -/
theorem C7_release_not_exactly_once :
    ((ProcessVoiceMessage (storePipeline helloModel) demoJob demoStore).result
          = .ok ⟨goStr "hello world"⟩
        ∧ (ProcessVoiceMessage (storePipeline helloModel) demoJob demoStore).state.removeLog
          = [goStr "/tmp/m1.ogg", goStr "/tmp/m1.ogg"])
      ∧ ((ProcessVoiceMessage storeUnreachable demoJob demoStore).result.failed = true
        ∧ (ProcessVoiceMessage storeUnreachable demoJob demoStore).state.removeLog = []
        ∧ (ProcessVoiceMessage storeUnreachable demoJob demoStore).state.files
          = [(goStr "/tmp/m1.ogg", goStr "OggS")])
      ∧ (∀ (σ : Type) (env : OrchestratorEnv σ) (req : ProcessRequest) (s : σ),
          (ProcessVoiceMessage env req s).result.failed = true →
          removedPaths (ProcessVoiceMessage env req s).calls = [])
      ∧ (∀ (model : List Part → Res GenerateContentResponse) (req : ProcessRequest)
          (st : TempStore) (resp : ProcessResponse),
          (ProcessVoiceMessage (storePipeline model) req st).result = .ok resp →
          req.AudioFilePath ≠ [] →
          (ProcessVoiceMessage (storePipeline model) req st).state.removeLog
            = st.removeLog ++ [req.AudioFilePath, req.AudioFilePath]) := by
  refine ⟨by decide, by decide, ?_, ?_⟩
  rotate_left
  · intro model req st resp hres hpath
    obtain ⟨tr, s1, sr, s2, htr, hsum, _⟩ :=
      ProcessVoiceMessage_ok_inv (storePipeline model) req st resp hres
    have hstate := (ProcessVoiceMessage_ok (storePipeline model) req st s1 s2 tr sr htr hsum).2.2.2
    have hlog1 : s1.removeLog = st.removeLog ++ [req.AudioFilePath] :=
      storeStage_transcribe_log model _ st s1 tr htr
    have hs2 : s2 = s1 := by
      have := storeStage_summarize_state model ⟨tr.Transcript, req.MediaId⟩ s1
      have hsum' : SummarizeText (storeStage model) ⟨tr.Transcript, req.MediaId⟩ s1
          = (.ok sr, s2) := hsum
      rw [hsum'] at this
      exact this
    rw [hstate, if_pos hpath]
    show (TempStore.remove req.AudioFilePath s2).2.removeLog = _
    rw [TempStore.remove_log, hs2, hlog1]
    simp
  intro σ env req s hfail
  rcases h : env.transcribeAudio ⟨req.AudioFilePath, req.MediaId⟩ s with ⟨_ | e, s1⟩
  · rename_i tr
    rcases h2 : env.summarizeText ⟨tr.Transcript, req.MediaId⟩ s1 with ⟨_ | e, s2⟩
    · rename_i sr
      rw [(ProcessVoiceMessage_ok env req s s1 s2 tr sr h h2).1] at hfail
      simp [Res.failed] at hfail
    · rw [ProcessVoiceMessage_summarize_err env req s s1 s2 tr e h h2]
      rfl
  · rw [ProcessVoiceMessage_transcribe_err env req s s1 e h]
    rfl

/-! ## The webhook handler: the message loop -/

theorem foldl_flatMap_eq {α β γ : Type} (f : β → α → β) (g : γ → List α) (l : List γ) (b : β) :
    (l.flatMap g).foldl f b = l.foldl (fun acc x => (g x).foldl f acc) b := by
  induction l generalizing b with
  | nil => rfl
  | cons x l ih => simp [List.flatMap_cons, List.foldl_append, ih]

/-- The three nested loops visit the messages of the payload in order. -/
theorem handleEntries_eq {σ : Type} (cfg : Config) (env : GatewayEnv σ)
    (payload : WebhookPayload) (acc : σ × List Call) :
    handleEntries cfg env payload acc = (allMessages payload).foldl (handleMessage cfg env) acc := by
  unfold handleEntries allMessages
  rw [foldl_flatMap_eq]
  congr 1
  funext acc1 entry
  rw [foldl_flatMap_eq]

/-- A message that is not an audio job leaves world and call log as they are. -/
theorem handleMessage_skip {σ : Type} (cfg : Config) (env : GatewayEnv σ)
    (acc : σ × List Call) (msg : Message) (h : audioJob msg = none) :
    handleMessage cfg env acc msg = acc := by
  unfold audioJob at h
  unfold handleMessage
  by_cases ht : msg.MsgType = goStr "audio"
  · cases ha : msg.Audio with
    | none => simp [ht]
    | some a => simp [ht, ha] at h
  · simp [ht]

/-- The reply function leaves the world as `afterReply` says: one request handed to the
HTTP client, the reply request, or none when it cannot be built. -/
theorem sendWhatsAppReply_state {σ : Type} (env : GatewayEnv σ) (cfg : Config)
    (recipientID messageText : GoString) (s : σ) :
    (sendWhatsAppReply env cfg.ApiToken cfg.PhoneNumberID recipientID messageText s).2
      = afterReply env cfg recipientID messageText s := by
  simp only [sendWhatsAppReply, afterReply, replyRequest, replyURL]
  cases hnew : env.httpNewRequest (goStr "POST")
      (goStr "https://graph.facebook.com/v19.0/" ++ cfg.PhoneNumberID ++ goStr "/messages") with
  | some e => rfl
  | none =>
    dsimp only
    rcases env.httpDo ⟨goStr "POST",
      goStr "https://graph.facebook.com/v19.0/" ++ cfg.PhoneNumberID ++ goStr "/messages",
      goStr "Bearer " ++ cfg.ApiToken, some (goStr "application/json"),
      env.jsonMarshalReply recipientID messageText⟩ s with ⟨_ | e, s1⟩
    · dsimp only
      split <;> rfl
    · rfl

/-- An audio job is handled as its course says: the world ends where the reply to the
text owed leaves it, and exactly one reply call is logged, to the sender, with that text. -/
theorem handleMessage_run {σ : Type} (cfg : Config) (env : GatewayEnv σ)
    (acc : σ × List Call) (msg : Message) (job : GoString × GoString)
    (h : audioJob msg = some job) :
    (handleMessage cfg env acc msg).1
        = afterReply env cfg job.1 (runJob cfg env job acc.1).text (runJob cfg env job acc.1).state
      ∧ replies (handleMessage cfg env acc msg).2
        = replies acc.2 ++ [(job.1, (runJob cfg env job acc.1).text)] := by
  unfold audioJob at h
  by_cases ht : msg.MsgType = goStr "audio"
  · cases ha : msg.Audio with
    | none => simp [ht, ha] at h
    | some a =>
      simp only [ht, ha, if_true, Option.map_some', Option.some.injEq] at h
      subst h
      rcases hdl : downloadWhatsAppMedia env a.ID cfg.ApiToken acc.1 with ⟨_ | e, s1⟩
      · rename_i filePath
        rcases hdial : env.grpcDial cfg.OrchestratorGRPCAddr s1 with ⟨_ | e, s2⟩
        · rcases hpvm : env.processVoiceMessage ⟨msg.From, a.ID, filePath⟩ s2 with ⟨_ | e, s3⟩
          · rename_i resp
            simp only [handleMessage, runJob, ht, ha, hdl, hdial, hpvm, if_true,
              sendWhatsAppReply_state]
            exact ⟨trivial, by simp [replies]⟩
          · simp only [handleMessage, runJob, ht, ha, hdl, hdial, hpvm, if_true,
              sendWhatsAppReply_state]
            exact ⟨trivial, by simp [replies]⟩
        · simp only [handleMessage, runJob, ht, ha, hdl, hdial, if_true,
            sendWhatsAppReply_state]
          exact ⟨trivial, by simp [replies]⟩
      · simp only [handleMessage, runJob, ht, ha, hdl, if_true, sendWhatsAppReply_state]
        exact ⟨trivial, by simp [replies]⟩
  · simp [ht] at h

/-- The message loop takes the audio jobs of the messages one after the other, as
`deliverJobs` says, and logs one reply call per job, with the text owed. -/
theorem handleMessages_deliver {σ : Type} (cfg : Config) (env : GatewayEnv σ)
    (msgs : List Message) (acc : σ × List Call) :
    (msgs.foldl (handleMessage cfg env) acc).1
        = deliveredWorld cfg env (msgs.filterMap audioJob) acc.1
      ∧ replies (msgs.foldl (handleMessage cfg env) acc).2
        = replies acc.2
          ++ (deliverJobs cfg env (msgs.filterMap audioJob) acc.1).map
              (fun r => (r.sender, r.text)) := by
  induction msgs generalizing acc with
  | nil => simp [deliveredWorld, deliverJobs]
  | cons msg msgs ih =>
    cases hj : audioJob msg with
    | none =>
      simp only [List.foldl_cons, handleMessage_skip cfg env acc msg hj,
        List.filterMap_cons, hj]
      exact ih acc
    | some job =>
      obtain ⟨hw, hr⟩ := handleMessage_run cfg env acc msg job hj
      obtain ⟨ihw, ihr⟩ := ih (handleMessage cfg env acc msg)
      have hsender : (runJob cfg env job acc.1).sender = job.1 := by
        unfold runJob
        split
        · rfl
        · split
          · rfl
          · split <;> rfl
      simp only [List.foldl_cons, List.filterMap_cons, hj, deliveredWorld, deliverJobs,
        List.map_cons, ihw, ihr, hw, hr, hsender, List.append_assoc, List.singleton_append]
      exact ⟨trivial, trivial⟩

/-! ## The recorder on the wire -/

theorem posts_append_get (log : List HttpRequest) (url authorization : GoString) :
    posts (log ++ [⟨goStr "GET", url, authorization, none, []⟩]) = posts log := by
  have hg : goStr "GET" ≠ goStr "POST" := by decide
  simp [posts, List.filter_append, hg]

theorem posts_append_get2 (log : List HttpRequest) (url1 url2 authorization : GoString) :
    posts (log ++ [⟨goStr "GET", url1, authorization, none, []⟩,
      ⟨goStr "GET", url2, authorization, none, []⟩]) = posts log := by
  have hg : goStr "GET" ≠ goStr "POST" := by decide
  simp [posts, List.filter_append, hg]

/-- Under the recorder the media download answers and acts on the world as without it,
and hands the HTTP client no POST request. -/
theorem download_recording {σ : Type} (env : GatewayEnv σ) (mediaID apiToken : GoString)
    (w : σ × List HttpRequest) :
    (downloadWhatsAppMedia (recording env) mediaID apiToken w).1
        = (downloadWhatsAppMedia env mediaID apiToken w.1).1
      ∧ (downloadWhatsAppMedia (recording env) mediaID apiToken w).2.1
        = (downloadWhatsAppMedia env mediaID apiToken w.1).2
      ∧ posts (downloadWhatsAppMedia (recording env) mediaID apiToken w).2.2 = posts w.2 := by
  cases h1 : env.httpNewRequest (goStr "GET")
      (goStr "https://graph.facebook.com/v19.0/" ++ mediaID) with
  | some e => simp [downloadWhatsAppMedia, recording, h1]
  | none =>
    rcases h2 : env.httpDo ⟨goStr "GET", goStr "https://graph.facebook.com/v19.0/" ++ mediaID,
      goStr "Bearer " ++ apiToken, none, []⟩ w.1 with ⟨_ | e, s1⟩
    · rename_i resp
      by_cases h3 : resp.StatusCode = 200
      · cases h4 : env.jsonDecodeMeta resp.Body with
        | err e => simp [downloadWhatsAppMedia, recording, h1, h2, h3, h4, posts_append_get, posts_append_get2]
        | ok url =>
          cases h5 : env.httpNewRequest (goStr "GET") url with
          | some e =>
            simp [downloadWhatsAppMedia, recording, h1, h2, h3, h4, h5, posts_append_get, posts_append_get2]
          | none =>
            rcases h6 : env.httpDo ⟨goStr "GET", url, goStr "Bearer " ++ apiToken, none, []⟩ s1
              with ⟨_ | e, s2⟩
            · rename_i resp2
              by_cases h7 : resp2.StatusCode = 200
              · rcases h8 : env.osCreate
                  (env.filepathJoin env.tempDir (mediaID ++ goStr ".ogg")) s2 with ⟨_ | e, s3⟩
                · rcases h9 : env.ioCopy
                    (env.filepathJoin env.tempDir (mediaID ++ goStr ".ogg")) resp2.Body s3
                    with ⟨_ | e, s4⟩
                  · simp [downloadWhatsAppMedia, recording, h1, h2, h3, h4, h5, h6, h7, h8, h9,
                      posts_append_get, posts_append_get2]
                  · simp [downloadWhatsAppMedia, recording, h1, h2, h3, h4, h5, h6, h7, h8, h9,
                      posts_append_get, posts_append_get2]
                · simp [downloadWhatsAppMedia, recording, h1, h2, h3, h4, h5, h6, h7, h8,
                    posts_append_get, posts_append_get2]
              · simp [downloadWhatsAppMedia, recording, h1, h2, h3, h4, h5, h6, h7,
                  posts_append_get, posts_append_get2]
            · simp [downloadWhatsAppMedia, recording, h1, h2, h3, h4, h5, h6, posts_append_get, posts_append_get2]
      · simp [downloadWhatsAppMedia, recording, h1, h2, h3, posts_append_get, posts_append_get2]
    · simp [downloadWhatsAppMedia, recording, h1, h2, posts_append_get, posts_append_get2]

theorem recording_grpcDial {σ : Type} (env : GatewayEnv σ) (addr : GoString)
    (w : σ × List HttpRequest) :
    (recording env).grpcDial addr w
      = ((env.grpcDial addr w.1).1, ((env.grpcDial addr w.1).2, w.2)) := rfl

theorem recording_processVoiceMessage {σ : Type} (env : GatewayEnv σ) (req : ProcessRequest)
    (w : σ × List HttpRequest) :
    (recording env).processVoiceMessage req w
      = ((env.processVoiceMessage req w.1).1, ((env.processVoiceMessage req w.1).2, w.2)) := rfl

/-- Under the recorder a job takes the course it takes without it, and no POST request
is handed to the HTTP client before the reply. -/
theorem runJob_recording {σ : Type} (cfg : Config) (env : GatewayEnv σ)
    (job : GoString × GoString) (w : σ × List HttpRequest) :
    (runJob cfg (recording env) job w).sender = (runJob cfg env job w.1).sender
      ∧ (runJob cfg (recording env) job w).failed = (runJob cfg env job w.1).failed
      ∧ (runJob cfg (recording env) job w).text = (runJob cfg env job w.1).text
      ∧ (runJob cfg (recording env) job w).state.1 = (runJob cfg env job w.1).state
      ∧ posts (runJob cfg (recording env) job w).state.2 = posts w.2 := by
  obtain ⟨hr, hs, hp⟩ := download_recording env job.2 cfg.ApiToken w
  rcases hd : downloadWhatsAppMedia (recording env) job.2 cfg.ApiToken w with ⟨r, s1, l1⟩
  rcases hpd : downloadWhatsAppMedia env job.2 cfg.ApiToken w.1 with ⟨r', s1'⟩
  rw [hd, hpd] at hr hs
  rw [hd] at hp
  simp only at hr hs hp
  subst hr hs
  cases r with
  | err e => simp only [runJob, hd, hpd, hp, and_self]
  | ok filePath =>
    rcases hdial : env.grpcDial cfg.OrchestratorGRPCAddr s1 with ⟨_ | e, s2⟩
    · rcases hpvm : env.processVoiceMessage ⟨job.1, job.2, filePath⟩ s2 with ⟨_ | e, s3⟩
      · simp only [runJob, hd, hpd, recording_grpcDial, recording_processVoiceMessage, hdial,
          hpvm, hp, and_self]
      · simp only [runJob, hd, hpd, recording_grpcDial, recording_processVoiceMessage, hdial,
          hpvm, hp, and_self]
    · simp only [runJob, hd, hpd, recording_grpcDial, hdial, hp, and_self]

/-- Under the recorder a reply acts on the world as without it, and the recorder gains
exactly the reply request when it can be built, nothing otherwise. -/
theorem afterReply_recording {σ : Type} (cfg : Config) (env : GatewayEnv σ)
    (recipientID messageText : GoString) (w : σ × List HttpRequest) :
    (afterReply (recording env) cfg recipientID messageText w).1
        = afterReply env cfg recipientID messageText w.1
      ∧ (afterReply (recording env) cfg recipientID messageText w).2
        = if env.httpNewRequest (goStr "POST") (replyURL cfg) = none then
            w.2 ++ [replyRequest env cfg recipientID messageText]
          else w.2 := by
  cases hnew : env.httpNewRequest (goStr "POST") (replyURL cfg) with
  | some e => simp [afterReply, recording, hnew]
  | none => simp [afterReply, recording, hnew, replyRequest]

theorem posts_append_reply {σ : Type} (cfg : Config) (env : GatewayEnv σ)
    (recipientID messageText : GoString) (log : List HttpRequest) :
    posts (log ++ [replyRequest env cfg recipientID messageText])
      = posts log ++ [replyRequest env cfg recipientID messageText] := by
  simp [posts, List.filter_append, replyRequest]

/-- Under the recorder a list of jobs takes the course it takes without it, and the POST
requests recorded are exactly the reply requests of the jobs, in order, when the reply
request can be built, and none otherwise. -/
theorem deliver_recording {σ : Type} (cfg : Config) (env : GatewayEnv σ)
    (jobs : List (GoString × GoString)) (w : σ × List HttpRequest) :
    (deliveredWorld cfg (recording env) jobs w).1 = deliveredWorld cfg env jobs w.1
      ∧ (deliverJobs cfg (recording env) jobs w).map (fun r => (r.sender, r.text))
        = (deliverJobs cfg env jobs w.1).map (fun r => (r.sender, r.text))
      ∧ posts (deliveredWorld cfg (recording env) jobs w).2
        = posts w.2 ++
          (if env.httpNewRequest (goStr "POST") (replyURL cfg) = none then
            (deliverJobs cfg env jobs w.1).map
              (fun r => replyRequest env cfg r.sender r.text)
          else []) := by
  induction jobs generalizing w with
  | nil => simp [deliveredWorld, deliverJobs]
  | cons job jobs ih =>
    obtain ⟨hsender, _, htext, hstate, hposts⟩ := runJob_recording cfg env job w
    have hjob : (runJob cfg env job w.1).sender = job.1 := by
      unfold runJob
      split
      · rfl
      · split
        · rfl
        · split <;> rfl
    obtain ⟨ha1, ha2⟩ := afterReply_recording cfg env job.1
      (runJob cfg (recording env) job w).text (runJob cfg (recording env) job w).state
    obtain ⟨ih1, ih2, ih3⟩ := ih (afterReply (recording env) cfg job.1
      (runJob cfg (recording env) job w).text (runJob cfg (recording env) job w).state)
    refine ⟨?_, ?_, ?_⟩
    · simp only [deliveredWorld]
      rw [ih1, ha1, htext, hstate]
    · simp only [deliverJobs, List.map_cons]
      rw [ih2, ha1, hsender, htext, hstate]
    · simp only [deliveredWorld, deliverJobs, List.map_cons]
      rw [ih3, ha1, ha2, htext, hstate, hjob]
      cases hnew : env.httpNewRequest (goStr "POST") (replyURL cfg) with
      | some e => simp [hposts]
      | none => simp [posts_append_reply, hposts]

/-- What every course of a job has: a failed job is owed one of the two failure notices;
a job that did not fail is owed the summary of an answer the orchestrator call returned. -/
theorem deliverJobs_courses {σ : Type} (cfg : Config) (env : GatewayEnv σ)
    (jobs : List (GoString × GoString)) (s : σ) :
    (deliverJobs cfg env jobs s).map (fun r => (r.sender, r.mediaID)) = jobs
      ∧ ∀ r ∈ deliverJobs cfg env jobs s,
        (r.failed = true → r.text = downloadNotice ∨ r.text = processNotice)
        ∧ (r.failed = false → ∃ filePath s2 resp,
            env.processVoiceMessage ⟨r.sender, r.mediaID, filePath⟩ s2 = (.ok resp, r.state)
            ∧ r.text = resp.Summary) := by
  have one : ∀ (job : GoString × GoString) (s0 : σ),
      ((runJob cfg env job s0).sender, (runJob cfg env job s0).mediaID) = job
      ∧ ((runJob cfg env job s0).failed = true →
          (runJob cfg env job s0).text = downloadNotice
          ∨ (runJob cfg env job s0).text = processNotice)
      ∧ ((runJob cfg env job s0).failed = false → ∃ filePath s2 resp,
          env.processVoiceMessage
            ⟨(runJob cfg env job s0).sender, (runJob cfg env job s0).mediaID, filePath⟩ s2
            = (.ok resp, (runJob cfg env job s0).state)
          ∧ (runJob cfg env job s0).text = resp.Summary) := by
    intro job s0
    rcases hd : downloadWhatsAppMedia env job.2 cfg.ApiToken s0 with ⟨_ | e, s1⟩
    · rename_i filePath
      rcases hdial : env.grpcDial cfg.OrchestratorGRPCAddr s1 with ⟨_ | e, s2⟩
      · rcases hpvm : env.processVoiceMessage ⟨job.1, job.2, filePath⟩ s2 with ⟨_ | e, s3⟩
        · rename_i resp
          simp only [runJob, hd, hdial, hpvm]
          exact ⟨trivial, by simp, fun _ => ⟨filePath, s2, resp, hpvm, rfl⟩⟩
        · simp [runJob, hd, hdial, hpvm]
      · simp [runJob, hd, hdial]
    · simp [runJob, hd]
  induction jobs generalizing s with
  | nil => simp [deliverJobs]
  | cons job jobs ih =>
    obtain ⟨ihjobs, ihall⟩ := ih (afterReply env cfg job.1 (runJob cfg env job s).text
      (runJob cfg env job s).state)
    refine ⟨?_, ?_⟩
    · simp only [deliverJobs, List.map_cons, ihjobs, (one job s).1]
    · intro r hr
      simp only [deliverJobs, List.mem_cons] at hr
      rcases hr with rfl | hr
      · exact (one job s).2
      · exact ihall r hr

/-! ## The webhook handler: a whole delivery -/

/-- What a validly signed, well-formed POST delivery does: parse, then the message loop. -/
theorem webhookHandler_post {σ : Type} (cfg : Config) (env : GatewayEnv σ)
    (query header : GoString → GoString) (body : GoString) (payload : WebhookPayload) (s : σ)
    (hsig : validateSignature env.hmacSha256 cfg.AppSecret body
      (header (goStr "X-Hub-Signature-256")) = true)
    (hparse : env.jsonUnmarshal body = .ok payload) :
    webhookHandler cfg env ⟨goStr "POST", query, header, .ok body⟩ s =
      ⟨200, [], ((allMessages payload).foldl (handleMessage cfg env) (s, [.unmarshal body])).1,
        ((allMessages payload).foldl (handleMessage cfg env) (s, [.unmarshal body])).2⟩ := by
  have hne : goStr "POST" ≠ goStr "GET" := by decide
  unfold webhookHandler
  simp only [hne, if_false, if_true, hsig, not_true_eq_false, hparse, handleEntries_eq]

/-- A validly signed, well-formed delivery takes its audio jobs one after the other:
status 200, the world left by `deliveredWorld`, one reply call per job with the text owed. -/
theorem webhookHandler_deliver {σ : Type} (cfg : Config) (env : GatewayEnv σ)
    (query header : GoString → GoString) (body : GoString) (payload : WebhookPayload) (s : σ)
    (hsig : validateSignature env.hmacSha256 cfg.AppSecret body
      (header (goStr "X-Hub-Signature-256")) = true)
    (hparse : env.jsonUnmarshal body = .ok payload) :
    (webhookHandler cfg env ⟨goStr "POST", query, header, .ok body⟩ s).status = 200
      ∧ (webhookHandler cfg env ⟨goStr "POST", query, header, .ok body⟩ s).state
        = deliveredWorld cfg env (audioJobs payload) s
      ∧ replies (webhookHandler cfg env ⟨goStr "POST", query, header, .ok body⟩ s).calls
        = (deliverJobs cfg env (audioJobs payload) s).map (fun r => (r.sender, r.text)) := by
  rw [webhookHandler_post cfg env query header body payload s hsig hparse]
  obtain ⟨hw, hr⟩ := handleMessages_deliver cfg env (allMessages payload) (s, [.unmarshal body])
  refine ⟨rfl, hw, ?_⟩
  rw [hr]
  rfl

/-- C8 (as the code has it): a correctly signed, well-formed delivery is answered 200 and
its audio jobs (the messages of type "audio" that carry an audio object) are taken one
after the other, each from the world the reply before it left.  With N such jobs, of
which M fail at media download, orchestrator connection or orchestrator call, exactly N
reply calls are made, one per job and to its sender: a failure notice for each of the M
failed jobs, the summary the orchestrator returned for each of the other N-M.  On the
wire, recorded at the HTTP client, the POST requests are exactly these N replies in
order when `http.NewRequest` accepts the messages URL, and none when it refuses it.  No
other message gets a reply, and a failure stops nothing. -/
theorem C8_replies_per_audio_job {σ : Type} (cfg : Config) (env : GatewayEnv σ)
    (query header : GoString → GoString) (body : GoString) (payload : WebhookPayload) (s : σ)
    (hsig : validateSignature env.hmacSha256 cfg.AppSecret body
      (header (goStr "X-Hub-Signature-256")) = true)
    (hparse : env.jsonUnmarshal body = .ok payload) :
    (webhookHandler cfg (recording env)
        ⟨goStr "POST", query, header, .ok body⟩ (s, [])).status = 200
      ∧ (webhookHandler cfg (recording env)
          ⟨goStr "POST", query, header, .ok body⟩ (s, [])).state.1
        = deliveredWorld cfg env (audioJobs payload) s
      ∧ replies (webhookHandler cfg (recording env)
          ⟨goStr "POST", query, header, .ok body⟩ (s, [])).calls
        = (deliverJobs cfg env (audioJobs payload) s).map (fun r => (r.sender, r.text))
      ∧ posts (webhookHandler cfg (recording env)
          ⟨goStr "POST", query, header, .ok body⟩ (s, [])).state.2
        = (if env.httpNewRequest (goStr "POST") (replyURL cfg) = none then
            (deliverJobs cfg env (audioJobs payload) s).map
              (fun r => replyRequest env cfg r.sender r.text)
          else [])
      ∧ (deliverJobs cfg env (audioJobs payload) s).map (fun r => (r.sender, r.mediaID))
        = audioJobs payload
      ∧ (∀ r ∈ deliverJobs cfg env (audioJobs payload) s,
          (r.failed = true → r.text = downloadNotice ∨ r.text = processNotice)
          ∧ (r.failed = false → ∃ filePath s2 resp,
              env.processVoiceMessage ⟨r.sender, r.mediaID, filePath⟩ s2 = (.ok resp, r.state)
              ∧ r.text = resp.Summary))
      ∧ (webhookHandler cfg env ⟨goStr "POST", query, header, .ok body⟩ s).status = 200
      ∧ (webhookHandler cfg env ⟨goStr "POST", query, header, .ok body⟩ s).state
        = deliveredWorld cfg env (audioJobs payload) s := by
  obtain ⟨h1, h2, h3⟩ := webhookHandler_deliver cfg (recording env) query header body payload
    (s, []) hsig hparse
  obtain ⟨p1, p2, _⟩ := webhookHandler_deliver cfg env query header body payload s hsig hparse
  obtain ⟨d1, d2, d3⟩ := deliver_recording cfg env (audioJobs payload) (s, [])
  obtain ⟨c1, c2⟩ := deliverJobs_courses cfg env (audioJobs payload) s
  refine ⟨h1, ?_, ?_, ?_, c1, c2, p1, p2⟩
  · rw [h2, d1]
  · rw [h3, d2]
  · rw [h2, d3]
    simp [posts]

/-- Witness of C8: the three-message delivery, whose second audio job fails at the
orchestrator call.  Status 200 and two POST requests recorded at the HTTP client, to the
sender of each job: the summary, then the failure notice. -/
theorem C8_replies_per_audio_job_witness :
    validateSignature demoHmac demoCfg.AppSecret (goStr "body") demoSig = true
      ∧ (webhookHandler demoCfg (recording (strictGateway (.ok threeMessages) onlyFirst))
          ⟨goStr "POST", fun _ => [], fun _ => demoSig, .ok (goStr "body")⟩ ((), [])).status
        = 200
      ∧ audioJobs threeMessages
        = [(goStr "15551234567", goStr "m1"), (goStr "15551234567", goStr "m2")]
      ∧ posts (webhookHandler demoCfg (recording (strictGateway (.ok threeMessages) onlyFirst))
          ⟨goStr "POST", fun _ => [], fun _ => demoSig, .ok (goStr "body")⟩ ((), [])).state.2
        = (deliverJobs demoCfg (strictGateway (.ok threeMessages) onlyFirst)
            (audioJobs threeMessages) ()).map
            (fun r => replyRequest (strictGateway (.ok threeMessages) onlyFirst) demoCfg
              r.sender r.text)
      ∧ (deliverJobs demoCfg (strictGateway (.ok threeMessages) onlyFirst)
            (audioJobs threeMessages) ()).map (fun r => (r.sender, r.failed, r.text))
        = [(goStr "15551234567", false, goStr "**Summary**: hello world"),
            (goStr "15551234567", true, processNotice)] :=
  have h := C8_replies_per_audio_job demoCfg (strictGateway (.ok threeMessages) onlyFirst)
    (fun _ => []) (fun _ => demoSig) (goStr "body") threeMessages () (by decide) rfl
  ⟨by decide, h.1, by decide, h.2.2.2.1.trans (if_pos (by decide)), by decide⟩

/-- Counterexample to C8 as stated, at two deliveries that are correctly signed and
well-formed.  First, one message of type "audio" that carries no audio object: N is 1,
yet no reply call is made and nothing is handed to the HTTP client.  Second, one audio
message under a configuration whose phone number id ends in a tab: the job succeeds and
the reply call is made, yet `http.NewRequest` refuses the URL and no POST goes out. -/
theorem C8_counterexample :
    (validateSignature demoHmac demoCfg.AppSecret (goStr "body") demoSig = true
      ∧ ((allMessages (oneMessage (goStr "audio") none)).filter isAudioType).length = 1
      ∧ (webhookHandler demoCfg
          (recording (strictGateway (.ok (oneMessage (goStr "audio") none)) onlyFirst))
          (demoPost demoSig (goStr "body")) ((), [])).status = 200
      ∧ replies (webhookHandler demoCfg
          (recording (strictGateway (.ok (oneMessage (goStr "audio") none)) onlyFirst))
          (demoPost demoSig (goStr "body")) ((), [])).calls = []
      ∧ (webhookHandler demoCfg
          (recording (strictGateway (.ok (oneMessage (goStr "audio") none)) onlyFirst))
          (demoPost demoSig (goStr "body")) ((), [])).state.2 = [])
    ∧ (validateSignature demoHmac tabCfg.AppSecret (goStr "body") demoSig = true
      ∧ ((allMessages (oneMessage (goStr "audio") (some ⟨goStr "m1"⟩))).filter
          isAudioType).length = 1
      ∧ (webhookHandler tabCfg
          (recording (strictGateway (.ok (oneMessage (goStr "audio") (some ⟨goStr "m1"⟩)))
            onlyFirst))
          (demoPost demoSig (goStr "body")) ((), [])).status = 200
      ∧ replies (webhookHandler tabCfg
          (recording (strictGateway (.ok (oneMessage (goStr "audio") (some ⟨goStr "m1"⟩)))
            onlyFirst))
          (demoPost demoSig (goStr "body")) ((), [])).calls
        = [(goStr "15551234567", goStr "**Summary**: hello world")]
      ∧ posts (webhookHandler tabCfg
          (recording (strictGateway (.ok (oneMessage (goStr "audio") (some ⟨goStr "m1"⟩)))
            onlyFirst))
          (demoPost demoSig (goStr "body")) ((), [])).state.2 = []) := by
  decide

/-! ## Gateway and orchestrator together -/

/-- Only messages of type "audio" can be audio jobs. -/
theorem filterMap_audio_only (msgs : List Message) :
    msgs.filterMap audioJob = (msgs.filter isAudioType).filterMap audioJob := by
  induction msgs with
  | nil => rfl
  | cons msg msgs ih =>
    by_cases ht : msg.MsgType = goStr "audio"
    · have : isAudioType msg = true := by simp [isAudioType, ht]
      simp only [List.filter_cons, this, if_true, List.filterMap_cons, ih]
    · have : isAudioType msg = false := by simp [isAudioType, ht]
      have hnone : audioJob msg = none := by simp [audioJob, ht]
      simp [List.filter_cons, this, List.filterMap_cons, hnone, ih]

/-- C9 (as the code has it): a correctly signed delivery with exactly one audio message,
from sender `F` with media id `m`, whose download succeeds, whose connection to the
orchestrator succeeds, whose transcription returns `t` and whose summarization of `t`
returns `sm`.  The orchestrator passes `t` unchanged to the summarization stage; the
gateway makes exactly one reply call, to `F` with text `sm`, and answers 200.  The world
ends where the orchestrator's run and then that one reply leave it.  On the wire,
recorded at the HTTP client, there is exactly one POST request, the reply to `F` with
text `sm`, when `http.NewRequest` accepts the messages URL, and none when it refuses it. -/
theorem C9_pipeline_reply {σ : Type} (cfg : Config) (genv : GatewayEnv σ)
    (oenv : OrchestratorEnv σ) (query header : GoString → GoString) (body : GoString)
    (payload : WebhookPayload) (F msgID m t sm fp mid mid' : GoString) (s s1 s2 s3 s4 : σ)
    (hsig : validateSignature genv.hmacSha256 cfg.AppSecret body
      (header (goStr "X-Hub-Signature-256")) = true)
    (hparse : genv.jsonUnmarshal body = .ok payload)
    (hone : (allMessages payload).filter isAudioType = [⟨F, msgID, goStr "audio", some ⟨m⟩⟩])
    (hdl : downloadWhatsAppMedia genv m cfg.ApiToken s = (.ok fp, s1))
    (hdial : genv.grpcDial cfg.OrchestratorGRPCAddr s1 = (none, s2))
    (htr : oenv.transcribeAudio ⟨fp, m⟩ s2 = (.ok ⟨t, mid⟩, s3))
    (hsum : oenv.summarizeText ⟨t, m⟩ s3 = (.ok ⟨sm, mid'⟩, s4)) :
    (webhookHandler cfg (recording (composed genv oenv))
        ⟨goStr "POST", query, header, .ok body⟩ (s, [])).status = 200
      ∧ replies (webhookHandler cfg (recording (composed genv oenv))
          ⟨goStr "POST", query, header, .ok body⟩ (s, [])).calls = [(F, sm)]
      ∧ summarizeRequests (ProcessVoiceMessage oenv ⟨F, m, fp⟩ s2).calls = [⟨t, m⟩]
      ∧ posts (webhookHandler cfg (recording (composed genv oenv))
          ⟨goStr "POST", query, header, .ok body⟩ (s, [])).state.2
        = (if genv.httpNewRequest (goStr "POST") (replyURL cfg) = none then
            [replyRequest genv cfg F sm]
          else [])
      ∧ (webhookHandler cfg (recording (composed genv oenv))
          ⟨goStr "POST", query, header, .ok body⟩ (s, [])).state.1
        = afterReply genv cfg F sm (if fp ≠ [] then (oenv.osRemove fp s4).2 else s4) := by
  have hok := ProcessVoiceMessage_ok oenv ⟨F, m, fp⟩ s2 s3 s4 ⟨t, mid⟩ ⟨sm, mid'⟩ htr hsum
  have hdl' : downloadWhatsAppMedia (composed genv oenv) m cfg.ApiToken s = (.ok fp, s1) := hdl
  have hdial' : (composed genv oenv).grpcDial cfg.OrchestratorGRPCAddr s1 = (none, s2) := hdial
  have hpvm : (composed genv oenv).processVoiceMessage ⟨F, m, fp⟩ s2
      = (.ok ⟨sm⟩, if fp ≠ [] then (oenv.osRemove fp s4).2 else s4) := by
    show ((ProcessVoiceMessage oenv ⟨F, m, fp⟩ s2).result,
      (ProcessVoiceMessage oenv ⟨F, m, fp⟩ s2).state) = _
    rw [hok.1, hok.2.2.2]
  have hjobs : audioJobs payload = [(F, m)] := by
    unfold audioJobs
    rw [filterMap_audio_only, hone]
    simp [audioJob]
  have hrun : runJob cfg (composed genv oenv) (F, m) s
      = ⟨F, m, false, sm, if fp ≠ [] then (oenv.osRemove fp s4).2 else s4⟩ := by
    simp only [runJob, hdl', hdial', hpvm]
  obtain ⟨h1, h2, h3⟩ := webhookHandler_deliver cfg (recording (composed genv oenv))
    query header body payload (s, []) hsig hparse
  obtain ⟨d1, d2, d3⟩ := deliver_recording cfg (composed genv oenv) (audioJobs payload) (s, [])
  refine ⟨h1, ?_, hok.2.1, ?_, ?_⟩
  · rw [h3, d2, hjobs]
    simp only [deliverJobs, List.map_cons, List.map_nil, hrun]
  · rw [h2, d3, hjobs]
    simp only [deliverJobs, List.map_cons, List.map_nil, hrun, posts, List.filter_nil,
      List.nil_append]
    rfl
  · rw [h2, d1, hjobs]
    simp only [deliveredWorld, hrun]
    rfl

/-- Witness of C9: media id "m1", transcript "hello world", summary
"**Summary**: hello world", under the sample configuration. -/
theorem C9_pipeline_reply_witness :
    (webhookHandler demoCfg
        (recording (composed
          (strictGateway (.ok (oneMessage (goStr "audio") (some ⟨goStr "m1"⟩))) onlyFirst)
          (fixedStages (goStr "hello world") (goStr "**Summary**: hello world"))))
        ⟨goStr "POST", fun _ => [], fun _ => demoSig, .ok (goStr "body")⟩ ((), [])).status = 200
      ∧ replies (webhookHandler demoCfg
        (recording (composed
          (strictGateway (.ok (oneMessage (goStr "audio") (some ⟨goStr "m1"⟩))) onlyFirst)
          (fixedStages (goStr "hello world") (goStr "**Summary**: hello world"))))
        ⟨goStr "POST", fun _ => [], fun _ => demoSig, .ok (goStr "body")⟩ ((), [])).calls
        = [(goStr "15551234567", goStr "**Summary**: hello world")]
      ∧ summarizeRequests (ProcessVoiceMessage
          (fixedStages (goStr "hello world") (goStr "**Summary**: hello world"))
          ⟨goStr "15551234567", goStr "m1", goStr "/tmp/m1.ogg"⟩ ()).calls
        = [⟨goStr "hello world", goStr "m1"⟩]
      ∧ posts (webhookHandler demoCfg
        (recording (composed
          (strictGateway (.ok (oneMessage (goStr "audio") (some ⟨goStr "m1"⟩))) onlyFirst)
          (fixedStages (goStr "hello world") (goStr "**Summary**: hello world"))))
        ⟨goStr "POST", fun _ => [], fun _ => demoSig, .ok (goStr "body")⟩ ((), [])).state.2
        = [⟨goStr "POST", goStr "https://graph.facebook.com/v19.0/1234567890/messages",
            goStr "Bearer api-token", some (goStr "application/json"),
            goStr "15551234567" ++ goStr "**Summary**: hello world"⟩] :=
  have h := C9_pipeline_reply demoCfg
    (strictGateway (.ok (oneMessage (goStr "audio") (some ⟨goStr "m1"⟩))) onlyFirst)
    (fixedStages (goStr "hello world") (goStr "**Summary**: hello world"))
    (fun _ => []) (fun _ => demoSig) (goStr "body")
    (oneMessage (goStr "audio") (some ⟨goStr "m1"⟩))
    (goStr "15551234567") (goStr "wamid.1") (goStr "m1") (goStr "hello world")
    (goStr "**Summary**: hello world") (goStr "/tmp/m1.ogg") (goStr "m1") (goStr "m1")
    () () () () () (by decide) rfl (by decide) (by decide) rfl rfl rfl
  ⟨h.1, h.2.1, h.2.2.1, h.2.2.2.1.trans (by decide)⟩

/-- Counterexample to C9 as stated: the delivery of the witness under a configuration
whose phone number id ends in a tab.  The signature is valid, the download succeeds, the
transcription returns "hello world" and the summarization returns the summary; the reply
call is made and the answer is 200, yet `http.NewRequest` refuses the messages URL and
no POST request is handed to the HTTP client: no reply goes out. -/
theorem C9_counterexample :
    validateSignature demoHmac tabCfg.AppSecret (goStr "body") demoSig = true
      ∧ downloadWhatsAppMedia
          (strictGateway (.ok (oneMessage (goStr "audio") (some ⟨goStr "m1"⟩))) onlyFirst)
          (goStr "m1") tabCfg.ApiToken () = (.ok (goStr "/tmp/m1.ogg"), ())
      ∧ (ProcessVoiceMessage
          (fixedStages (goStr "hello world") (goStr "**Summary**: hello world"))
          ⟨goStr "15551234567", goStr "m1", goStr "/tmp/m1.ogg"⟩ ()).result
        = .ok ⟨goStr "**Summary**: hello world"⟩
      ∧ strictNewRequest (goStr "POST") (replyURL tabCfg)
        = some ⟨goStr "net/url: invalid control character in URL"⟩
      ∧ (webhookHandler tabCfg
        (recording (composed
          (strictGateway (.ok (oneMessage (goStr "audio") (some ⟨goStr "m1"⟩))) onlyFirst)
          (fixedStages (goStr "hello world") (goStr "**Summary**: hello world"))))
        (demoPost demoSig (goStr "body")) ((), [])).status = 200
      ∧ posts (webhookHandler tabCfg
        (recording (composed
          (strictGateway (.ok (oneMessage (goStr "audio") (some ⟨goStr "m1"⟩))) onlyFirst)
          (fixedStages (goStr "hello world") (goStr "**Summary**: hello world"))))
        (demoPost demoSig (goStr "body")) ((), [])).state.2 = [] := by
  decide

end LambdaBot
